import Mathlib

/-!
# Shallow embedding of the `game-core` combat engine

This file embeds the Rust combat-resolution engine of the repository
(`crates/game-core/src/…`) into Lean 4 and proves the frozen claims about it.

Modelling conventions, applied uniformly:

* Rust `u32`/`u64`/`u8`/`usize` values are modelled as `Nat`.  All checked
  Rust arithmetic stays far below `2^32` on every input appearing in the
  claims and in the shipped game data, so additions and multiplications are
  modelled exactly (a Rust debug build would panic rather than wrap on
  overflow).  `saturating_sub` is `Nat` truncated subtraction.
* Rust `i32`/`i64` values are modelled as `Int`; Rust's `/` on signed
  integers truncates toward zero, which is `Int.tdiv`.
* Rust `f32` appears in two places.  (1) The star multiplier
  `(base as f32 * star_multiplier()) as u32` where the multiplier is `1.0`,
  `2.0`, `3.0` or `3.0 * (1.0 + g * 0.5)`: this is modelled as the exact
  integer computation (`base * star`, resp. `base * 3 * (2 + g) / 2`).
  (2) The boss field `rage_per_damage: f32`, used only as
  `(actual_damage as f32 * rage_per_damage) as u32`: the boss structure
  carries this whole map abstractly as a field `rage_from_damage : Nat → Nat`,
  because every claim about rage holds for an arbitrary such map.
* Rust `&mut self` methods are embedded in state-passing style: they return
  the updated structure together with the Rust return value, and an error
  return carries the state exactly as it was at the `return Err` statement.
-/

set_option maxHeartbeats 1000000

namespace IsekaiGenesis

/-- `u32::MAX`, the sentinel used by the "weakest enemy" loops. -/
def u32Max : Nat := 4294967295

/-! ## Terrain system (`gc_battle_terrain.rs`) -/

/-- Battle terrain type (`GcTerrainType`). -/
inductive GcTerrainType where
  | Plain | Volcano | Glacier | Ocean | Swamp | Shadow | Holy | Forest | Mountain
deriving DecidableEq, Repr

/-- Monster elemental attribute (`GcMonsterAttribute`). -/
inductive GcMonsterAttribute where
  | None | Fire | Water | Wind | Earth | Light | Dark
deriving DecidableEq, Repr

/-- Terrain stat modifier (`GcTerrainModifier`): six signed fields. -/
structure GcTerrainModifier where
  atk_percent : Int
  def_percent : Int
  hp_per_turn_percent : Int
  dodge_bonus : Int
  damage_taken_percent : Int
  healing_bonus_percent : Int
deriving DecidableEq, Repr

namespace GcTerrainModifier

/-- `GcTerrainModifier::none` / `Default::default()`: the all-zero modifier. -/
def none : GcTerrainModifier := ⟨0, 0, 0, 0, 0, 0⟩

/-- `apply_atk`: `(base as i64 * (100 + atk_percent) / 100).max(1) as u32`.
Rust `/` on `i64` truncates toward zero (`Int.tdiv`); the result is `≥ 1`
after `max(1)`, so the final `as u32` cast is `Int.toNat`. -/
def apply_atk (m : GcTerrainModifier) (base_atk : Nat) : Nat :=
  (max (((base_atk : Int) * (100 + m.atk_percent)).tdiv 100) 1).toNat

/-- `apply_def`: `(base as i64 * (100 + def_percent) / 100).max(0) as u32`. -/
def apply_def (m : GcTerrainModifier) (base_def : Nat) : Nat :=
  (max (((base_def : Int) * (100 + m.def_percent)).tdiv 100) 0).toNat

end GcTerrainModifier

/-- `gc_get_terrain_modifier`: the (terrain, attribute) → modifier table.
(The Rust parameter is called `attribute`; that word is a Lean keyword, so it
is named `attr` here.) -/
def gc_get_terrain_modifier (terrain : GcTerrainType) (attr : GcMonsterAttribute) :
    GcTerrainModifier :=
  match terrain, attr with
  | .Plain, _ => .none
  | .Volcano, .Fire => { GcTerrainModifier.none with atk_percent := 20 }
  | .Volcano, .Water => { GcTerrainModifier.none with atk_percent := -10 }
  | .Glacier, .Water => { GcTerrainModifier.none with def_percent := 20 }
  | .Glacier, .Fire => { GcTerrainModifier.none with def_percent := -10 }
  | .Ocean, .Water => { GcTerrainModifier.none with atk_percent := 10, def_percent := 10 }
  | .Ocean, .Fire => { GcTerrainModifier.none with atk_percent := -20 }
  | .Swamp, _ => { GcTerrainModifier.none with hp_per_turn_percent := -5 }
  | .Shadow, .Dark => { GcTerrainModifier.none with atk_percent := 30 }
  | .Shadow, .Light => { GcTerrainModifier.none with damage_taken_percent := 20 }
  | .Holy, .Light => { GcTerrainModifier.none with def_percent := 30 }
  | .Holy, .Dark => { GcTerrainModifier.none with atk_percent := -20 }
  | .Forest, .Wind => { GcTerrainModifier.none with healing_bonus_percent := 20 }
  | .Forest, .Earth => { GcTerrainModifier.none with healing_bonus_percent := 20 }
  | .Mountain, .Earth => { GcTerrainModifier.none with def_percent := 25 }
  | .Mountain, .Wind => { GcTerrainModifier.none with dodge_bonus := 1000 }
  | _, _ => .none

/-- World terrain type (`GcWorldTerrainType`). -/
inductive GcWorldTerrainType where
  | Grassland | Desert | Snowfield | Waterside | Highland | Woodland | Cave | Ruins
deriving DecidableEq, Repr

/-- Enemy type (`GcEnemyType`). -/
inductive GcEnemyType where
  | Normal | FireType | WaterType | DarkType | LightType | Boss
deriving DecidableEq, Repr

/-- A (terrain, weight) pair (`GcTerrainWeight`). -/
structure GcTerrainWeight where
  terrain : GcTerrainType
  weight : Nat
deriving DecidableEq, Repr

/-- `gc_get_base_terrain_weights`: base weight table per world terrain. -/
def gc_get_base_terrain_weights (world_terrain : GcWorldTerrainType) : List GcTerrainWeight :=
  match world_terrain with
  | .Grassland => [⟨.Plain, 60⟩, ⟨.Forest, 30⟩, ⟨.Mountain, 10⟩]
  | .Desert => [⟨.Plain, 30⟩, ⟨.Volcano, 50⟩, ⟨.Mountain, 20⟩]
  | .Snowfield => [⟨.Glacier, 60⟩, ⟨.Plain, 20⟩, ⟨.Mountain, 20⟩]
  | .Waterside => [⟨.Ocean, 50⟩, ⟨.Swamp, 30⟩, ⟨.Plain, 20⟩]
  | .Highland => [⟨.Mountain, 60⟩, ⟨.Plain, 20⟩, ⟨.Volcano, 20⟩]
  | .Woodland => [⟨.Forest, 70⟩, ⟨.Swamp, 20⟩, ⟨.Plain, 10⟩]
  | .Cave => [⟨.Shadow, 50⟩, ⟨.Mountain, 30⟩, ⟨.Swamp, 20⟩]
  | .Ruins => [⟨.Shadow, 30⟩, ⟨.Holy, 30⟩, ⟨.Plain, 40⟩]

/-- The `(boost_terrain, boost_amount)` pair chosen by `gc_apply_enemy_modifier`
for each enemy type; `none` for `Normal` (the function returns early). -/
def gcEnemyBias (enemy_type : GcEnemyType) : Option (GcTerrainType × Nat) :=
  match enemy_type with
  | .Normal => none
  | .FireType => some (.Volcano, 30)
  | .WaterType => some (.Ocean, 30)
  | .DarkType => some (.Shadow, 40)
  | .LightType => some (.Holy, 40)
  | .Boss => some (.Shadow, 20)

/-- The boost loop of `gc_apply_enemy_modifier`: add `b` to the first entry
whose terrain is `t` (then `break`); if no entry matches, push a new entry. -/
def gcApplyBoost (t : GcTerrainType) (b : Nat) : List GcTerrainWeight → List GcTerrainWeight
  | [] => [⟨t, b⟩]
  | w :: ws =>
    if w.terrain = t then { w with weight := w.weight + b } :: ws
    else w :: gcApplyBoost t b ws

/-- `gc_apply_enemy_modifier` (state-passing: returns the updated weight list). -/
def gc_apply_enemy_modifier (weights : List GcTerrainWeight) (enemy_type : GcEnemyType) :
    List GcTerrainWeight :=
  match gcEnemyBias enemy_type with
  | none => weights
  | some (t, b) => gcApplyBoost t b weights

/-- The accumulation loop of `gc_select_terrain`. -/
def gcSelectLoop (threshold : Nat) : List GcTerrainWeight → Nat → GcTerrainType
  | [], _ => .Plain
  | w :: ws, accumulated =>
    if threshold < accumulated + w.weight then w.terrain
    else gcSelectLoop threshold ws (accumulated + w.weight)

/-- `gc_select_terrain`: cumulative-sum threshold selection on
`random_value % total`; neutral `Plain` when the total weight is `0`. -/
def gc_select_terrain (weights : List GcTerrainWeight) (random_value : Nat) : GcTerrainType :=
  let total := (weights.map (·.weight)).sum
  if total = 0 then .Plain
  else gcSelectLoop (random_value % total) weights 0

/-- `gc_generate_battle_terrain`: bias the base weights by enemy type, then
draw the player terrain from `seed % 100` and the enemy terrain from
`(seed / 100) % 100` over the same biased list. -/
def gc_generate_battle_terrain (world_terrain : GcWorldTerrainType) (enemy_type : GcEnemyType)
    (random_seed : Nat) : GcTerrainType × GcTerrainType :=
  let weights := gc_apply_enemy_modifier (gc_get_base_terrain_weights world_terrain) enemy_type
  let player_random := random_seed % 100
  let enemy_random := (random_seed / 100) % 100
  (gc_select_terrain weights player_random, gc_select_terrain weights enemy_random)

/-! ## Monster model (`gc_monster.rs`) -/

/-- Monster entity (`GcMonster`).  The Rust field `attribute` is named `attr`
(Lean keyword).  `star` is `1`–`3` and `golden_level` is `0` for non-golden
units; both are `u8` in the source. -/
structure GcMonster where
  id : String
  template_id : String
  name : String
  level : Nat
  attr : GcMonsterAttribute
  base_atk : Nat
  base_def : Nat
  current_hp : Nat
  max_hp : Nat
  slot : Option Nat
  can_attack : Bool
  star : Nat
  golden_level : Nat
deriving DecidableEq, Repr

namespace GcMonster

/-- `(base as f32 * star_multiplier()) as u32`, computed exactly:
`star_multiplier` is `star` for non-golden units and `3.0 * (1.0 + g * 0.5)`
for golden ones, so the product is `base * star`, resp. `base * 3 * (2 + g) / 2`
(the `/ 2` truncation matches the `as u32` float-to-int truncation). -/
def starred (m : GcMonster) (base : Nat) : Nat :=
  if m.golden_level > 0 then base * 3 * (2 + m.golden_level) / 2
  else base * m.star

/-- `starred_atk`: star-scaled attack, no terrain. -/
def starred_atk (m : GcMonster) : Nat := m.starred m.base_atk

/-- `starred_def`: star-scaled defense, no terrain. -/
def starred_def (m : GcMonster) : Nat := m.starred m.base_def

/-- `effective_atk`: star-scaled attack with the terrain modifier applied. -/
def effective_atk (m : GcMonster) (terrain : GcTerrainType) : Nat :=
  (gc_get_terrain_modifier terrain m.attr).apply_atk (m.starred m.base_atk)

/-- `effective_def`: star-scaled defense with the terrain modifier applied. -/
def effective_def (m : GcMonster) (terrain : GcTerrainType) : Nat :=
  (gc_get_terrain_modifier terrain m.attr).apply_def (m.starred m.base_def)

/-- `take_damage`: saturating HP subtraction; returns the updated monster and
whether this reduced HP to exactly `0`. -/
def take_damage (m : GcMonster) (damage : Nat) : GcMonster × Bool :=
  if m.current_hp ≤ damage then ({ m with current_hp := 0 }, true)
  else ({ m with current_hp := m.current_hp - damage }, false)

end GcMonster

/-! ## Combat resolvers (`gc_monster.rs`, `gc_combat.rs`) -/

/-- Battle result (`GcBattleResult`). -/
structure GcBattleResult where
  attacker_id : String
  defender_id : String
  attacker_atk : Nat
  defender_def : Nat
  damage : Nat
  defender_destroyed : Bool
  counter_damage : Nat
  attacker_destroyed : Bool
deriving DecidableEq, Repr

/-- `gc_calculate_battle_damage`: three-way ATK/DEF comparison; the destroyed
flags compare the applied damage against the victim's current HP. -/
def gc_calculate_battle_damage (attacker defender : GcMonster)
    (attacker_terrain defender_terrain : GcTerrainType) : GcBattleResult :=
  let atk := attacker.effective_atk attacker_terrain
  let defs := defender.effective_def defender_terrain
  let dc : Nat × Nat :=
    if atk > defs then (atk - defs, 0)
    else if atk < defs then (0, defs - atk)
    else (0, 0)
  { attacker_id := attacker.id
    defender_id := defender.id
    attacker_atk := atk
    defender_def := defs
    damage := dc.1
    defender_destroyed := decide (dc.1 ≥ defender.current_hp)
    counter_damage := dc.2
    attacker_destroyed := decide (dc.2 ≥ attacker.current_hp) }

/-- Attack outcome (`GcAttackOutcome`, `gc_combat.rs`). -/
structure GcAttackOutcome where
  attacker_slot : Nat
  target_slot : Option Nat
  attacker_name : String
  target_name : Option String
  damage : Nat
  target_destroyed : Bool
  attacker_destroyed : Bool
  player_damage : Nat
deriving DecidableEq, Repr

/-- `gc_calculate_attack`: the duel resolver of `gc_combat.rs`.  Note that the
destroyed flags here are fixed by the branch taken (`atk == def` is the
mutual-destruction branch), not by an HP comparison. -/
def gc_calculate_attack (attacker : GcMonster) (defender : Option GcMonster)
    (attacker_slot : Nat) (defender_slot : Option Nat)
    (attacker_terrain defender_terrain : GcTerrainType) : GcAttackOutcome :=
  let atk := attacker.effective_atk attacker_terrain
  match defender with
  | some def_monster =>
    let defs := def_monster.effective_def defender_terrain
    let ddt : Nat × Bool × Bool :=
      if atk > defs then (atk - defs, false, true)
      else if atk < defs then (defs - atk, true, false)
      else (0, true, true)
    { attacker_slot := attacker_slot
      target_slot := defender_slot
      attacker_name := attacker.name
      target_name := some def_monster.name
      damage := ddt.1
      target_destroyed := ddt.2.2
      attacker_destroyed := ddt.2.1
      player_damage := if ddt.2.2 then ddt.1 else 0 }
  | none =>
    { attacker_slot := attacker_slot
      target_slot := none
      attacker_name := attacker.name
      target_name := none
      damage := atk
      target_destroyed := false
      attacker_destroyed := false
      player_damage := atk }

/-- The scan loop shared verbatim (line for line) by `gc_auto_select_target`
(`gc_combat.rs`) and `GcBattleArena::get_weakest_enemy_slot`
(`gc_battlefield.rs`): track the strictly smallest effective attack seen so
far, starting from the `u32::MAX` sentinel. -/
def gcWeakestLoop (terrain : GcTerrainType) :
    List (Option GcMonster) → Nat → Nat → Option Nat → Option Nat
  | [], _, _, target => target
  | none :: rest, i, min_atk, target => gcWeakestLoop terrain rest (i + 1) min_atk target
  | some m :: rest, i, min_atk, target =>
    let eff_atk := m.effective_atk terrain
    if eff_atk < min_atk then gcWeakestLoop terrain rest (i + 1) eff_atk (some i)
    else gcWeakestLoop terrain rest (i + 1) min_atk target

/-- `gc_auto_select_target`: weakest-enemy slot over the 5-slot array
(embedded as a list), `none` meaning a direct player hit. -/
def gc_auto_select_target (enemy_monsters : List (Option GcMonster))
    (enemy_terrain : GcTerrainType) : Option Nat :=
  gcWeakestLoop enemy_terrain enemy_monsters 0 u32Max none

/-! ## Boss combat state machine (`gc_boss.rs`) -/

/-- Boss type (`GcBossType`). -/
inductive GcBossType where
  | Mini | Weekly | World
deriving DecidableEq, Repr

/-- Boss state (`GcBossState`). -/
inductive GcBossState where
  | Idle | Attacking | Charging | Enraged | Stunned | Dead
deriving DecidableEq, Repr

/-- Skill target type (`GcSkillTargetType`). -/
inductive GcSkillTargetType where
  | Single | Organization | All
deriving DecidableEq, Repr

/-- Boss skill (`GcBossSkill`). -/
structure GcBossSkill where
  id : String
  name : String
  description : String
  damage : Nat
  target_type : GcSkillTargetType
  cooldown : Nat
  current_cooldown : Nat
  rage_required : Option Nat
deriving DecidableEq, Repr

namespace GcBossSkill

/-- `GcBossSkill::gc_new`. -/
def gc_new (id name description : String) (damage : Nat) (target_type : GcSkillTargetType)
    (cooldown : Nat) : GcBossSkill :=
  ⟨id, name, description, damage, target_type, cooldown, 0, none⟩

/-- `GcBossSkill::gc_new_rage_skill`. -/
def gc_new_rage_skill (id name description : String) (damage rage_required : Nat) : GcBossSkill :=
  ⟨id, name, description, damage, .All, 0, 0, some rage_required⟩

/-- `gc_is_ready`: current cooldown is `0`. -/
def gc_is_ready (s : GcBossSkill) : Bool := s.current_cooldown = 0

/-- `gc_use`: enter cooldown. -/
def gc_use (s : GcBossSkill) : GcBossSkill := { s with current_cooldown := s.cooldown }

/-- `gc_tick`: decrement a positive cooldown at turn end. -/
def gc_tick (s : GcBossSkill) : GcBossSkill :=
  if s.current_cooldown > 0 then { s with current_cooldown := s.current_cooldown - 1 } else s

end GcBossSkill

/-- Boss drop (`GcBossDrop`). -/
structure GcBossDrop where
  item_id : String
  item_name : String
  drop_rate : Nat
  min_quantity : Nat
  max_quantity : Nat
deriving DecidableEq, Repr

/-- Boss (`GcBoss`).  The Rust field `rage_per_damage : f32` is only ever used
as `(actual_damage as f32 * rage_per_damage) as u32`; that whole map is
carried abstractly as `rage_from_damage : Nat → Nat` (see the file header). -/
structure GcBoss where
  id : String
  name : String
  boss_type : GcBossType
  description : String
  max_hp : Nat
  current_hp : Nat
  base_attack : Nat
  current_attack : Nat
  defense : Nat
  max_rage : Nat
  current_rage : Nat
  rage_from_damage : Nat → Nat
  skills : List GcBossSkill
  rage_skill : GcBossSkill
  state : GcBossState
  revive_count : Nat
  max_revives : Nat
  attack_boost_per_revive : Nat
  target_organization : Option String
  drops : List GcBossDrop

namespace GcBoss

/-- `GcBoss::gc_new`. -/
def gc_new (id name : String) (boss_type : GcBossType)
    (max_hp base_attack defense max_rage : Nat) (rage_from_damage : Nat → Nat) : GcBoss :=
  { id := id
    name := name
    boss_type := boss_type
    description := ""
    max_hp := max_hp
    current_hp := max_hp
    base_attack := base_attack
    current_attack := base_attack
    defense := defense
    max_rage := max_rage
    current_rage := 0
    rage_from_damage := rage_from_damage
    skills := []
    rage_skill := GcBossSkill.gc_new_rage_skill "default_rage" "rage burst" "aoe" 50 100
    state := .Idle
    revive_count := 0
    max_revives := 0
    attack_boost_per_revive := 0
    target_organization := none
    drops := [] }

/-- `gc_is_alive`. -/
def gc_is_alive (b : GcBoss) : Bool := b.current_hp > 0 && b.state ≠ GcBossState.Dead

/-- `gc_can_revive`: Weekly boss with revive budget left. -/
def gc_can_revive (b : GcBoss) : Bool :=
  b.boss_type = GcBossType.Weekly && b.revive_count < b.max_revives

/-- `gc_add_rage`: cap at `max_rage`; reaching the cap enters `Enraged`
(the Rust code first stores the capped rage, then tests
`current_rage >= max_rage && state != Enraged` on the updated value). -/
def gc_add_rage (b : GcBoss) (amount : Nat) : GcBoss :=
  if b.max_rage ≤ min (b.current_rage + amount) b.max_rage ∧ b.state ≠ GcBossState.Enraged then
    { b with current_rage := min (b.current_rage + amount) b.max_rage, state := .Enraged }
  else { b with current_rage := min (b.current_rage + amount) b.max_rage }

/-- `gc_is_rage_full`. -/
def gc_is_rage_full (b : GcBoss) : Bool := b.max_rage ≤ b.current_rage

/-- `gc_consume_rage`: clear rage; leave `Enraged` back to `Idle`. -/
def gc_consume_rage (b : GcBoss) : GcBoss :=
  let b := { b with current_rage := 0 }
  if b.state = GcBossState.Enraged then { b with state := .Idle } else b

/-- `gc_revive_weekly`: +1 revive, HP to half of the pre-kill HP (min 1),
attack to `base + (base * boost / 100) * revive_count`, enter `Enraged`,
clear rage. -/
def gc_revive_weekly (b : GcBoss) (hp_before_kill : Nat) : GcBoss :=
  let b := { b with revive_count := b.revive_count + 1 }
  let hp := hp_before_kill / 2
  let b := { b with current_hp := if hp = 0 then 1 else hp }
  let boost := b.base_attack * b.attack_boost_per_revive / 100
  { b with current_attack := b.base_attack + boost * b.revive_count
           state := .Enraged
           current_rage := 0 }

/-- `gc_revive` (non-weekly): +1 revive, full HP, boosted attack, `Enraged`,
clear rage. -/
def gc_revive (b : GcBoss) : GcBoss :=
  let b := { b with revive_count := b.revive_count + 1 }
  let b := { b with current_hp := b.max_hp }
  let boost := b.base_attack * b.attack_boost_per_revive / 100
  { b with current_attack := b.base_attack + boost * b.revive_count
           state := .Enraged
           current_rage := 0 }

/-- `gc_take_damage_weekly`: apply `max(1, damage − defense/2)`, add rage,
then on HP = 0 either revive (more than one surviving org) or die (otherwise).
Returns the updated boss and `(actual_damage, needs_revive, truly_dead)`. -/
def gc_take_damage_weekly (b : GcBoss) (damage surviving_org_count : Nat) :
    GcBoss × (Nat × Bool × Bool) :=
  let actual_damage := max (damage - b.defense / 2) 1
  let hp_before := b.current_hp
  let b := { b with current_hp := b.current_hp - actual_damage }
  let rage_gain := b.rage_from_damage actual_damage
  let b := b.gc_add_rage rage_gain
  if b.current_hp = 0 then
    if surviving_org_count > 1 then (b.gc_revive_weekly hp_before, (actual_damage, true, false))
    else ({ b with state := .Dead }, (actual_damage, false, true))
  else (b, (actual_damage, false, false))

/-- `gc_take_damage` (non-weekly): apply damage, add rage, and on HP = 0
either revive (when `gc_can_revive`) or enter `Dead`. -/
def gc_take_damage (b : GcBoss) (damage : Nat) : GcBoss × (Nat × Bool) :=
  let actual_damage := max (damage - b.defense / 2) 1
  let b := { b with current_hp := b.current_hp - actual_damage }
  let rage_gain := b.rage_from_damage actual_damage
  let b := b.gc_add_rage rage_gain
  let died := b.current_hp = 0
  if died then
    if b.gc_can_revive then
      let b := b.gc_revive
      (b, (actual_damage, decide died && !b.gc_is_alive))
    else
      let b := { b with state := GcBossState.Dead }
      (b, (actual_damage, decide died && !b.gc_is_alive))
  else (b, (actual_damage, decide died && !b.gc_is_alive))

/-- The `filter(is_ready).max_by_key(cooldown)` step of `gc_select_skill`.
Rust's `Iterator::max_by_key` returns the **last** of several equally maximal
elements, which is the fold keeping the new element on `key new ≥ key best`. -/
def gcMaxByCooldown (skills : List GcBossSkill) : Option GcBossSkill :=
  skills.foldl
    (fun best s =>
      match best with
      | none => some s
      | some m => if m.cooldown ≤ s.cooldown then some s else some m)
    none

/-- `gc_select_skill`: the rage skill when rage is full (ignoring cooldowns);
otherwise the ready skill with the longest base cooldown. -/
def gc_select_skill (b : GcBoss) : Option GcBossSkill :=
  if b.gc_is_rage_full then some b.rage_skill
  else gcMaxByCooldown (b.skills.filter (·.gc_is_ready))

/-- `gc_on_turn_end`: tick every skill's cooldown. -/
def gc_on_turn_end (b : GcBoss) : GcBoss :=
  { b with skills := b.skills.map GcBossSkill.gc_tick }

end GcBoss

/-! ## Cards (`gc_card.rs`, `gc_effect.rs`) -/

/-- Card type (`GcCardType`). -/
inductive GcCardType where
  | Attack | Defense | Skill | Special
deriving DecidableEq, Repr

/-- Card rarity (`GcCardRarity`). -/
inductive GcCardRarity where
  | Common | Rare | Epic | Legendary
deriving DecidableEq, Repr

/-- Card target type (`GcTargetType`). -/
inductive GcTargetType where
  | SingleEnemy | AllEnemies | SelfTarget | SingleAlly | AllAllies | None
deriving DecidableEq, Repr

/-- Effect type (`GcEffectType`). -/
inductive GcEffectType where
  | Damage | PhysicalDamage | MagicDamage | Heal | Armor | GainBlock | DrawCard
  | DiscardCard | Buff | Debuff | Stun | Poison | ApplyPoison | Weak | ApplyWeak | Taunt
deriving DecidableEq, Repr

/-- Effect (`GcEffect`). -/
structure GcEffect where
  effect_type : GcEffectType
  value : Int
  duration : Nat
  name : String
  target : GcTargetType
deriving DecidableEq, Repr

/-- Card instance (`GcCard`). -/
structure GcCard where
  id : String
  template_id : String
  name : String
  description : String
  card_type : GcCardType
  rarity : GcCardRarity
  cost : Nat
  base_damage : Nat
  base_defense : Nat
  target_type : GcTargetType
  effects : List GcEffect
deriving DecidableEq, Repr

namespace GcCard

/-- `GcCard::gc_new_attack`. -/
def gc_new_attack (id name : String) (cost damage : Nat) : GcCard :=
  ⟨id, "", name, "", .Attack, .Common, cost, damage, 0, .SingleEnemy, []⟩

/-- `GcCard::gc_new_defense`. -/
def gc_new_defense (id name : String) (cost defense : Nat) : GcCard :=
  ⟨id, "", name, "", .Defense, .Common, cost, 0, defense, .SelfTarget, []⟩

end GcCard

/-! ## Battlefield slot engine (`gc_battlefield.rs`) -/

/-- Battlefield configuration (`GcBattlefieldConfig`); default is 5 slots,
deploy cost 1. -/
structure GcBattlefieldConfig where
  slot_count : Nat
  deploy_cost : Nat
deriving DecidableEq, Repr

/-- `GcBattlefieldConfig::default()`. -/
def GcBattlefieldConfig.default : GcBattlefieldConfig := ⟨5, 1⟩

/-- Battlefield slot (`GcBattlefieldSlot`). -/
structure GcBattlefieldSlot where
  index : Nat
  card : Option GcCard
  can_attack : Bool
  remaining_hp : Nat
deriving DecidableEq, Repr

namespace GcBattlefieldSlot

/-- `GcBattlefieldSlot::gc_new`: empty slot. -/
def gc_new (index : Nat) : GcBattlefieldSlot := ⟨index, none, false, 0⟩

/-- `gc_is_empty`. -/
def gc_is_empty (s : GcBattlefieldSlot) : Bool := s.card.isNone

/-- `gc_deploy`: store the card, set the starting shield (defense cards use
`base_defense`, all others `max(base_damage, 1)`), and disable attacking. -/
def gc_deploy (s : GcBattlefieldSlot) (card : GcCard) : GcBattlefieldSlot :=
  let hp := match card.card_type with
    | .Defense => card.base_defense
    | _ => max card.base_damage 1
  { s with remaining_hp := hp, card := some card, can_attack := false }

/-- `gc_remove`: take the card out, clearing eligibility and shield. -/
def gc_remove (s : GcBattlefieldSlot) : GcBattlefieldSlot × Option GcCard :=
  ({ s with card := none, can_attack := false, remaining_hp := 0 }, s.card)

/-- `gc_enable_attack`: occupied slots become eligible. -/
def gc_enable_attack (s : GcBattlefieldSlot) : GcBattlefieldSlot :=
  if s.card.isSome then { s with can_attack := true } else s

/-- `gc_take_damage`: returns the updated slot and whether the card was
destroyed (shield exhausted, card removed). -/
def gc_take_damage (s : GcBattlefieldSlot) (damage : Nat) : GcBattlefieldSlot × Bool :=
  if s.remaining_hp ≤ damage then (({ s with remaining_hp := 0 }).gc_remove.1, true)
  else ({ s with remaining_hp := s.remaining_hp - damage }, false)

end GcBattlefieldSlot

/-- Per-attack record (`GcAttackResult`). -/
structure GcAttackResult where
  attacker_slot : Nat
  attacker_name : String
  target_slot : Nat
  target_name : Option String
  damage : Nat
  target_destroyed : Bool
  hit_player : Bool
deriving DecidableEq, Repr

/-- Sweep result (`GcBattlefieldCombatResult`). -/
structure GcBattlefieldCombatResult where
  attacks : List GcAttackResult
  player_damage : Nat
  cards_destroyed : Nat
deriving DecidableEq, Repr

/-- Battlefield (`GcBattlefield`). -/
structure GcBattlefield where
  config : GcBattlefieldConfig
  slots : List GcBattlefieldSlot
deriving DecidableEq, Repr

namespace GcBattlefield

/-- `GcBattlefield::gc_new`. -/
def gc_new (config : GcBattlefieldConfig) : GcBattlefield :=
  ⟨config, (List.range config.slot_count).map GcBattlefieldSlot.gc_new⟩

/-- `GcBattlefield::gc_default()`. -/
def gc_default : GcBattlefield := gc_new GcBattlefieldConfig.default

/-- `gc_deploy_to_slot`: fail on an out-of-range or occupied slot. -/
def gc_deploy_to_slot (bf : GcBattlefield) (slot_index : Nat) (card : GcCard) :
    GcBattlefield × Option String :=
  match bf.slots[slot_index]? with
  | none => (bf, some "invalid slot")
  | some slot =>
    if !slot.gc_is_empty then (bf, some "slot occupied")
    else ({ bf with slots := bf.slots.set slot_index (slot.gc_deploy card) }, none)

/-- `gc_on_turn_start`: every occupied slot becomes attack-eligible. -/
def gc_on_turn_start (bf : GcBattlefield) : GcBattlefield :=
  { bf with slots := bf.slots.map GcBattlefieldSlot.gc_enable_attack }

end GcBattlefield

/-- One iteration of the `gc_attack_battlefield` loop at index `i`, for the
attacking slot `a` and the mirrored enemy slot `e` (which exists): returns the
updated enemy slot and the combat-result contribution. -/
def gcSweepLane (i : Nat) (a e : GcBattlefieldSlot) :
    GcBattlefieldSlot × Option GcAttackResult × Nat × Nat :=
  match a.card with
  | none => (e, none, 0, 0)
  | some attacker_card =>
    if !a.can_attack then (e, none, 0, 0)
    else
      let damage := attacker_card.base_damage
      if !e.gc_is_empty then
        let (e', destroyed) := e.gc_take_damage damage
        (e',
         some { attacker_slot := i
                attacker_name := attacker_card.name
                target_slot := i
                target_name := e.card.map (·.name)
                damage := damage
                target_destroyed := destroyed
                hit_player := false },
         0,
         if destroyed then 1 else 0)
      else
        (e,
         some { attacker_slot := i
                attacker_name := attacker_card.name
                target_slot := i
                target_name := none
                damage := damage
                target_destroyed := false
                hit_player := true },
         damage,
         0)

/-- The `for i in 0..self.slots.len()` loop of `gc_attack_battlefield`,
walking both slot lists in parallel from index `i`.  When the enemy list is
exhausted first, `gc_get_slot_mut` returns `None` in the source and the loop
body does nothing; when the attacker list is exhausted, the remaining enemy
slots are untouched. -/
def gcSweepGo (i : Nat) :
    List GcBattlefieldSlot → List GcBattlefieldSlot →
    List GcBattlefieldSlot × GcBattlefieldCombatResult
  | [], es => (es, ⟨[], 0, 0⟩)
  | _ :: as, [] => ([], (gcSweepGo (i + 1) as []).2)
  | a :: as, e :: es =>
    let (e', entry, pd, cd) := gcSweepLane i a e
    let (es', r) := gcSweepGo (i + 1) as es
    (e' :: es',
     { attacks := entry.toList ++ r.attacks
       player_damage := pd + r.player_damage
       cards_destroyed := cd + r.cards_destroyed })

/-- `GcBattlefield::gc_attack_battlefield`: run the index-mirrored sweep, then
reset every attacking slot's eligibility.  State-passing embedding: returns
(updated self, updated enemy battlefield, combat result). -/
def gc_attack_battlefield (self enemy : GcBattlefield) :
    GcBattlefield × GcBattlefield × GcBattlefieldCombatResult :=
  let (es, result) := gcSweepGo 0 self.slots enemy.slots
  ({ self with slots := self.slots.map (fun s => { s with can_attack := false }) },
   { enemy with slots := es },
   result)

/-- Battle arena (`GcBattleArena`), the monster-duel sandbox.  The two
`[Option<GcMonster>; 5]` arrays are embedded as lists (of length 5). -/
structure GcBattleArena where
  player_terrain : GcTerrainType
  enemy_terrain : GcTerrainType
  player_monsters : List (Option GcMonster)
  enemy_monsters : List (Option GcMonster)
  normal_summon_used : Bool
deriving DecidableEq, Repr

/-- `GcBattleArena::get_weakest_enemy_slot`: the same loop as
`gc_auto_select_target`, over the arena's enemy side and enemy terrain. -/
def GcBattleArena.get_weakest_enemy_slot (arena : GcBattleArena) : Option Nat :=
  gcWeakestLoop arena.enemy_terrain arena.enemy_monsters 0 u32Max none

/-! ## Players and the battle aggregate (`gc_player.rs`, `gc_battle.rs`) -/

/-- Player state (`GcPlayerState`). -/
inductive GcPlayerState where
  | Alive | Dead | Stunned | Disconnected
deriving DecidableEq, Repr

/-- Player combat stats (`GcPlayerStats`). -/
structure GcPlayerStats where
  hp : Nat
  max_hp : Nat
  attack : Nat
  defense : Nat
  energy : Nat
  max_energy : Nat
  action_points : Nat
  max_action_points : Nat
deriving DecidableEq, Repr

namespace GcPlayerStats

/-- `gc_has_action_points`. -/
def gc_has_action_points (st : GcPlayerStats) (cost : Nat) : Bool :=
  cost ≤ st.action_points

/-- `gc_use_action_points`: subtract when affordable; returns success. -/
def gc_use_action_points (st : GcPlayerStats) (cost : Nat) : GcPlayerStats × Bool :=
  if cost ≤ st.action_points then ({ st with action_points := st.action_points - cost }, true)
  else (st, false)

end GcPlayerStats

/-- Player (`GcPlayer`).  The RPG-only fields (`level`, `profession`,
`talents`, `inventory`) are never read or written by any battle operation
embedded in this file; `level` is kept and the three optional RPG aggregates
are omitted (they would only be carried around untouched). -/
structure GcPlayer where
  id : String
  name : String
  stats : GcPlayerStats
  state : GcPlayerState
  hand : List GcCard
  deck : List GcCard
  discard : List GcCard
  battlefield : GcBattlefield
  level : Nat
deriving DecidableEq, Repr

namespace GcPlayer

/-- `gc_find_card_in_hand`: first hand card with the given id. -/
def gc_find_card_in_hand (p : GcPlayer) (card_id : String) : Option GcCard :=
  p.hand.find? (·.id = card_id)

/-- The hand-update half of `gc_remove_card_from_hand`: remove the first card
with the given id (by position), returning it and the remaining hand. -/
def gcRemoveFirst (card_id : String) : List GcCard → Option GcCard × List GcCard
  | [] => (none, [])
  | c :: cs =>
    if c.id = card_id then (some c, cs)
    else
      let (r, cs') := gcRemoveFirst card_id cs
      (r, c :: cs')

/-- `gc_remove_card_from_hand`. -/
def gc_remove_card_from_hand (p : GcPlayer) (card_id : String) : GcPlayer × Option GcCard :=
  let (r, hand') := gcRemoveFirst card_id p.hand
  match r with
  | some card => ({ p with hand := hand' }, some card)
  | none => (p, none)

/-- `gc_deploy_to_battlefield`: remove the card from the hand, deploy it to
the slot; on a deploy failure the card is pushed back onto the hand. -/
def gc_deploy_to_battlefield (p : GcPlayer) (card_id : String) (slot_index : Nat) :
    GcPlayer × Option String :=
  match p.gc_remove_card_from_hand card_id with
  | (_, none) => (p, some "card not in hand")
  | (p', some card) =>
    match p'.battlefield.gc_deploy_to_slot slot_index card with
    | (bf', none) => ({ p' with battlefield := bf' }, none)
    | (bf', some e) => ({ p' with battlefield := bf', hand := p'.hand ++ [card] }, some e)

end GcPlayer

/-- Battle phase (`GcBattlePhase`). -/
inductive GcBattlePhase where
  | Starting | DrawCard | Playing | EndTurn | Finished
deriving DecidableEq, Repr

/-- Card pool configuration (`GcCardPoolConfig`). -/
structure GcCardPoolConfig where
  display_size : Nat
  acquire_cost : Nat
  refresh_cost : Nat
  initial_pool_size : Nat
deriving DecidableEq, Repr

/-- Public card pool (`GcCardPool`).  `gc_deploy_card` neither reads nor
writes it; only its data layout matters here. -/
structure GcCardPool where
  config : GcCardPoolConfig
  draw_pile : List GcCard
  display : List GcCard
  discard_pile : List GcCard
deriving DecidableEq, Repr

/-- Error kinds (`GcError`).  `gc_battle.rs` additionally uses the variants
`GcNotEnoughActionPoints`, `GcInvalidSlot`, `GcSlotOccupied`, `GcHandFull` and
`GcCardNotInPool` at its return sites; they are included here. -/
inductive GcError where
  | GcBattleEnded | GcNotYourTurn | GcBattleNotStarted
  | GcPlayerNotFound | GcPlayerCannotAct
  | GcCardNotInHand | GcCardNotFound | GcNotEnoughEnergy
  | GcNotEnoughActionPoints | GcHandFull | GcCardNotInPool
  | GcInvalidSlot | GcSlotOccupied
  | GcInvalidTarget | GcTargetDead
  | GcInvalidAction (msg : String) | GcInternalError (msg : String)
deriving DecidableEq, Repr

/-- Battle state (`GcBattleState`). -/
structure GcBattleState where
  id : String
  turn : Nat
  current_player_index : Nat
  players : List GcPlayer
  phase : GcBattlePhase
  turn_time_limit : Nat
  winner_id : Option String
  card_pool : GcCardPool
  action_points_per_turn : Nat
deriving DecidableEq, Repr

namespace GcBattleState

/-- `gc_current_player`. -/
def gc_current_player (st : GcBattleState) : Option GcPlayer :=
  st.players[st.current_player_index]?

/-- `gc_current_player_id`. -/
def gc_current_player_id (st : GcBattleState) : Option String :=
  st.gc_current_player.map (·.id)

/-- `gc_find_player`: first player with the given id. -/
def gc_find_player (st : GcBattleState) (player_id : String) : Option GcPlayer :=
  st.players.find? (·.id = player_id)

/-- The in-place mutation through `gc_find_player_mut`: replace the first
player whose id matches with the given new value. -/
def gcSetFirstPlayer (player_id : String) (p' : GcPlayer) : List GcPlayer → List GcPlayer
  | [] => []
  | p :: ps =>
    if p.id = player_id then p' :: ps
    else p :: gcSetFirstPlayer player_id p' ps

/-- `GcBattleState::gc_deploy_card`.  The outer `Option` models the Rust
panic: the occupied-slot check indexes `battlefield.slots[slot_index]`
directly, which panics when the battlefield has fewer than `slot_index + 1`
slots (`none` = panic).  Otherwise the result is the updated state paired
with `none` on success or the `GcError` returned. -/
def gc_deploy_card (st : GcBattleState) (player_id card_id : String) (slot_index : Nat) :
    Option (GcBattleState × Option GcError) :=
  if st.gc_current_player_id ≠ some player_id then some (st, some .GcNotYourTurn)
  else
    match st.gc_find_player player_id with
    | none => some (st, some .GcPlayerNotFound)
    | some player =>
      if !player.stats.gc_has_action_points 1 then some (st, some .GcNotEnoughActionPoints)
      else if 5 ≤ slot_index then some (st, some .GcInvalidSlot)
      else
        match player.battlefield.slots[slot_index]? with
        | none => none
        | some slot =>
          if !slot.gc_is_empty then some (st, some .GcSlotOccupied)
          else if (player.gc_find_card_in_hand card_id).isNone then
            some (st, some .GcCardNotInHand)
          else
            let player1 := { player with stats := (player.stats.gc_use_action_points 1).1 }
            match player1.gc_deploy_to_battlefield card_id slot_index with
            | (player2, some e) =>
              some ({ st with players := gcSetFirstPlayer player_id player2 st.players },
                    some (.GcInvalidAction e))
            | (player2, none) =>
              some ({ st with players := gcSetFirstPlayer player_id player2 st.players }, none)

end GcBattleState

/-! ## Helper notions for the terrain claims -/

/-- Total weight of a weight list. -/
def totalWeight (ws : List GcTerrainWeight) : Nat := (ws.map (·.weight)).sum

/-- Cumulative weight of the first `k` entries. -/
def cumWeight (ws : List GcTerrainWeight) (k : Nat) : Nat :=
  ((ws.take k).map (·.weight)).sum

theorem cumWeight_cons (w : GcTerrainWeight) (ws : List GcTerrainWeight) (k : Nat) :
    cumWeight (w :: ws) (k + 1) = w.weight + cumWeight ws k := by
  simp [cumWeight]

theorem totalWeight_cons (w : GcTerrainWeight) (ws : List GcTerrainWeight) :
    totalWeight (w :: ws) = w.weight + totalWeight ws := by
  simp [totalWeight]

/-- The selection loop, started below the threshold, stops at the first entry
whose cumulative sum exceeds the threshold. -/
theorem gcSelectLoop_spec (threshold : Nat) :
    ∀ (ws : List GcTerrainWeight) (acc : Nat),
      acc ≤ threshold → threshold < acc + totalWeight ws →
      ∃ i w, ws[i]? = some w ∧ gcSelectLoop threshold ws acc = w.terrain ∧
        threshold < acc + cumWeight ws (i + 1) ∧
        ∀ j < i, acc + cumWeight ws (j + 1) ≤ threshold := by
  intro ws
  induction ws with
  | nil =>
    intro acc hacc hlt
    simp [totalWeight] at hlt
    omega
  | cons w ws ih =>
    intro acc hacc hlt
    by_cases h : threshold < acc + w.weight
    · refine ⟨0, w, by simp, ?_, ?_, ?_⟩
      · simp [gcSelectLoop, h]
      · simpa [cumWeight] using h
      · omega
    · push_neg at h
      have hlt' : threshold < (acc + w.weight) + totalWeight ws := by
        rw [totalWeight_cons] at hlt
        omega
      obtain ⟨i, v, hv, hres, hcum, hprev⟩ := ih (acc + w.weight) h hlt'
      refine ⟨i + 1, v, by simpa using hv, ?_, ?_, ?_⟩
      · have : ¬ threshold < acc + w.weight := by omega
        simp [gcSelectLoop, this]
        exact hres
      · rw [cumWeight_cons]
        omega
      · intro j hj
        match j with
        | 0 => rw [cumWeight_cons]; simpa [cumWeight] using h
        | Nat.succ j' =>
          rw [cumWeight_cons]
          have := hprev j' (by omega)
          omega

/-- C5: `gc_select_terrain` takes the threshold `random_value % total`, returns
the terrain of the first entry whose cumulative weight sum exceeds the
threshold, returns `Plain` when the total weight is `0`, and on the weight
list `[(Plain,60),(Forest,30),(Mountain,10)]` maps the random values
`59 / 60 / 89 / 90` to `Plain / Forest / Forest / Mountain`. -/
theorem gc_select_terrain_spec (weights : List GcTerrainWeight) (random_value : Nat) :
    (totalWeight weights = 0 → gc_select_terrain weights random_value = .Plain) ∧
    (totalWeight weights ≠ 0 →
      ∃ i w, weights[i]? = some w ∧
        gc_select_terrain weights random_value = w.terrain ∧
        random_value % totalWeight weights < cumWeight weights (i + 1) ∧
        ∀ j < i, cumWeight weights (j + 1) ≤ random_value % totalWeight weights) ∧
    (gc_select_terrain [⟨.Plain, 60⟩, ⟨.Forest, 30⟩, ⟨.Mountain, 10⟩] 59 = .Plain ∧
     gc_select_terrain [⟨.Plain, 60⟩, ⟨.Forest, 30⟩, ⟨.Mountain, 10⟩] 60 = .Forest ∧
     gc_select_terrain [⟨.Plain, 60⟩, ⟨.Forest, 30⟩, ⟨.Mountain, 10⟩] 89 = .Forest ∧
     gc_select_terrain [⟨.Plain, 60⟩, ⟨.Forest, 30⟩, ⟨.Mountain, 10⟩] 90 = .Mountain) := by
  refine ⟨?_, ?_, by decide, by decide, by decide, by decide⟩
  · intro h
    simp [gc_select_terrain, totalWeight] at h ⊢
    simp [h]
  · intro h
    have hmod : random_value % totalWeight weights < totalWeight weights :=
      Nat.mod_lt _ (Nat.pos_of_ne_zero h)
    obtain ⟨i, w, hv, hres, hcum, hprev⟩ :=
      gcSelectLoop_spec (random_value % totalWeight weights) weights 0 (Nat.zero_le _)
        (by omega)
    refine ⟨i, w, hv, ?_, by omega, fun j hj => by have := hprev j hj; omega⟩
    have : totalWeight weights ≠ 0 := h
    simp [gc_select_terrain, totalWeight] at this ⊢
    rw [if_neg (by simpa [totalWeight] using h)]
    simpa [totalWeight] using hres

/-- Witness for `gc_select_terrain_spec`: the Grassland table with random
value 60 satisfies the hypotheses and picks `Forest` as entry 1. -/
theorem gc_select_terrain_spec_witness :
    totalWeight [⟨.Plain, 60⟩, ⟨.Forest, 30⟩, ⟨.Mountain, 10⟩] ≠ 0 ∧
    (∃ i w,
      ([⟨GcTerrainType.Plain, 60⟩, ⟨.Forest, 30⟩, ⟨.Mountain, 10⟩] :
          List GcTerrainWeight)[i]? = some w ∧
      gc_select_terrain [⟨.Plain, 60⟩, ⟨.Forest, 30⟩, ⟨.Mountain, 10⟩] 60 = w.terrain ∧
      60 % totalWeight [⟨.Plain, 60⟩, ⟨.Forest, 30⟩, ⟨.Mountain, 10⟩] <
        cumWeight [⟨.Plain, 60⟩, ⟨.Forest, 30⟩, ⟨.Mountain, 10⟩] (i + 1) ∧
      ∀ j < i,
        cumWeight [⟨.Plain, 60⟩, ⟨.Forest, 30⟩, ⟨.Mountain, 10⟩] (j + 1) ≤
          60 % totalWeight [⟨.Plain, 60⟩, ⟨.Forest, 30⟩, ⟨.Mountain, 10⟩]) :=
  ⟨by decide,
   (gc_select_terrain_spec [⟨.Plain, 60⟩, ⟨.Forest, 30⟩, ⟨.Mountain, 10⟩] 60).2.1
     (by decide)⟩

/-! ## C6: terrain generation pipeline -/

/-- The enemy bias step, written as the spec describes it: locate the biased
terrain's entry by index and add the bonus to it, or append a fresh entry when
the terrain is absent. -/
def specApplyEnemyBias (ws : List GcTerrainWeight) (enemy_type : GcEnemyType) :
    List GcTerrainWeight :=
  match gcEnemyBias enemy_type with
  | none => ws
  | some (t, b) =>
    match ws.findIdx? (fun w => w.terrain = t) with
    | some i =>
      match ws[i]? with
      | some w => ws.set i { w with weight := w.weight + b }
      | none => ws
    | none => ws ++ [⟨t, b⟩]

theorem gcApplyBoost_eq_spec (t : GcTerrainType) (b : Nat) :
    ∀ ws : List GcTerrainWeight,
      gcApplyBoost t b ws =
        match ws.findIdx? (fun w => w.terrain = t) with
        | some i =>
          match ws[i]? with
          | some w => ws.set i { w with weight := w.weight + b }
          | none => ws
        | none => ws ++ [⟨t, b⟩] := by
  intro ws
  induction ws with
  | nil => simp [gcApplyBoost]
  | cons w ws ih =>
    by_cases h : w.terrain = t
    · simp [gcApplyBoost, h, List.findIdx?_cons]
    · rw [List.findIdx?_cons]
      simp only [h, decide_False, if_false, List.findIdx?_succ]
      cases hfi : ws.findIdx? (fun v => v.terrain = t) with
      | none => simp [gcApplyBoost, h, ih, hfi]
      | some i =>
        cases hv : ws[i]? with
        | none => simp [gcApplyBoost, h, ih, hfi, hv]
        | some v => simp [gcApplyBoost, h, ih, hfi, hv]

/-- C6: `gc_generate_battle_terrain` biases the base weights first, then
draws both sides from the same biased list with `seed % 100` and
`(seed / 100) % 100`; the bias step adds the bonus to the existing entry of
the biased terrain or inserts a new one; identical arguments give identical
results. -/
theorem gc_generate_battle_terrain_spec (world_terrain : GcWorldTerrainType)
    (enemy_type : GcEnemyType) (random_seed : Nat) :
    (gc_generate_battle_terrain world_terrain enemy_type random_seed =
      (gc_select_terrain
          (gc_apply_enemy_modifier (gc_get_base_terrain_weights world_terrain) enemy_type)
          (random_seed % 100),
       gc_select_terrain
          (gc_apply_enemy_modifier (gc_get_base_terrain_weights world_terrain) enemy_type)
          (random_seed / 100 % 100))) ∧
    (∀ ws : List GcTerrainWeight,
      gc_apply_enemy_modifier ws enemy_type = specApplyEnemyBias ws enemy_type) ∧
    (∀ seed₂ : Nat, seed₂ = random_seed →
      gc_generate_battle_terrain world_terrain enemy_type seed₂ =
        gc_generate_battle_terrain world_terrain enemy_type random_seed) := by
  refine ⟨rfl, ?_, ?_⟩
  · intro ws
    unfold gc_apply_enemy_modifier specApplyEnemyBias
    cases gcEnemyBias enemy_type with
    | none => rfl
    | some tb => exact gcApplyBoost_eq_spec tb.1 tb.2 ws
  · intro seed₂ h
    rw [h]

/-- Witness for `gc_generate_battle_terrain_spec`: evaluated at Grassland,
fire-type enemy, seed 6042 (both hypotheses discharged concretely). -/
theorem gc_generate_battle_terrain_spec_witness :
    gc_apply_enemy_modifier (gc_get_base_terrain_weights .Grassland) .FireType =
      specApplyEnemyBias (gc_get_base_terrain_weights .Grassland) .FireType ∧
    gc_generate_battle_terrain .Grassland .FireType 6042 =
      gc_generate_battle_terrain .Grassland .FireType 6042 :=
  ⟨(gc_generate_battle_terrain_spec .Grassland .FireType 6042).2.1
      (gc_get_base_terrain_weights .Grassland),
   (gc_generate_battle_terrain_spec .Grassland .FireType 6042).2.2 6042 rfl⟩

/-! ## C1 / C9 helper lemmas about `gc_add_rage` -/

namespace GcBoss

theorem gc_add_rage_current_rage (b : GcBoss) (n : Nat) :
    (b.gc_add_rage n).current_rage = min (b.current_rage + n) b.max_rage := by
  unfold gc_add_rage
  split <;> rfl

theorem gc_add_rage_proj (b : GcBoss) (n : Nat) :
    (b.gc_add_rage n).current_hp = b.current_hp ∧
    (b.gc_add_rage n).max_rage = b.max_rage ∧
    (b.gc_add_rage n).revive_count = b.revive_count ∧
    (b.gc_add_rage n).base_attack = b.base_attack ∧
    (b.gc_add_rage n).current_attack = b.current_attack ∧
    (b.gc_add_rage n).attack_boost_per_revive = b.attack_boost_per_revive ∧
    (b.gc_add_rage n).defense = b.defense ∧
    (b.gc_add_rage n).max_hp = b.max_hp ∧
    (b.gc_add_rage n).boss_type = b.boss_type ∧
    (b.gc_add_rage n).max_revives = b.max_revives ∧
    (b.gc_add_rage n).skills = b.skills := by
  unfold gc_add_rage
  split <;> simp

theorem gc_add_rage_state (b : GcBoss) (n : Nat)
    (h : b.max_rage ≤ (b.gc_add_rage n).current_rage) :
    (b.gc_add_rage n).state = .Enraged := by
  rw [gc_add_rage_current_rage] at h
  unfold gc_add_rage
  split
  · rfl
  · next hcond =>
    simp only [not_and, not_not] at hcond
    exact hcond h

end GcBoss

/-! ## C1: weekly boss revival -/

/-- C1 (amended): on a killing blow (`actual damage ≥ current HP`) to a
Weekly boss, `gc_take_damage_weekly` revives when more than one organization
survives — HP to `max(hp_before / 2, 1)`, revive count `+1`, attack set to
`base + ⌊base·boost/100⌋·reviveCount` (integer floor, the code's formula),
rage cleared, state `Enraged` — with no `max_revives` check (the statement
quantifies over every `revive_count` and `max_revives`); when at most one
organization survives the boss keeps HP `0`, enters `Dead`, and the revive
count is unchanged. -/
theorem gc_take_damage_weekly_spec (b : GcBoss) (damage s : Nat)
    (hweekly : b.boss_type = .Weekly)
    (hkill : b.current_hp ≤ max (damage - b.defense / 2) 1) :
    (1 < s →
      ((b.gc_take_damage_weekly damage s).1.current_hp = max (b.current_hp / 2) 1 ∧
       (b.gc_take_damage_weekly damage s).1.revive_count = b.revive_count + 1 ∧
       (b.gc_take_damage_weekly damage s).1.current_attack =
         b.base_attack +
           b.base_attack * b.attack_boost_per_revive / 100 * (b.revive_count + 1) ∧
       (b.gc_take_damage_weekly damage s).1.current_rage = 0 ∧
       (b.gc_take_damage_weekly damage s).1.state = .Enraged)) ∧
    (s ≤ 1 →
      ((b.gc_take_damage_weekly damage s).1.current_hp = 0 ∧
       (b.gc_take_damage_weekly damage s).1.state = .Dead ∧
       (b.gc_take_damage_weekly damage s).1.revive_count = b.revive_count)) := by
  have hzero : b.current_hp - max (damage - b.defense / 2) 1 = 0 := by omega
  unfold GcBoss.gc_take_damage_weekly GcBoss.gc_add_rage GcBoss.gc_revive_weekly
  simp only [hzero]
  split
  all_goals
    constructor
    · intro hs
      rw [if_pos rfl, if_pos hs]
      refine ⟨?_, rfl, rfl, rfl, rfl⟩
      simp only
      split <;> omega
    · intro hs
      rw [if_pos rfl, if_neg (by omega)]
      exact ⟨rfl, rfl, rfl⟩

/-- The concrete Weekly boss falsifying the claimed exact attack formula:
base attack 10, 5% boost per revive, one previous revive, 1 HP left. -/
def c1Boss : GcBoss :=
  { id := "b"
    name := "b"
    boss_type := .Weekly
    description := ""
    max_hp := 100
    current_hp := 1
    base_attack := 10
    current_attack := 10
    defense := 0
    max_rage := 100
    current_rage := 0
    rage_from_damage := fun _ => 0
    skills := []
    rage_skill := GcBossSkill.gc_new_rage_skill "r" "r" "r" 50 100
    state := .Idle
    revive_count := 1
    max_revives := 3
    attack_boost_per_revive := 5
    target_organization := none
    drops := [] }

/-- C1 counterexample: after the killing blow with two surviving
organizations, `c1Boss` revives to `revive_count = 2` but its current attack
is `10`, while the claimed formula `base × (1 + revive_count × boost%)`
demands `10 × 1.10 = 11` (scaled by 100: `1000 ≠ 1100`). -/
theorem gc_take_damage_weekly_attack_formula_counterexample :
    (c1Boss.gc_take_damage_weekly 5 2).1.revive_count = 2 ∧
    (c1Boss.gc_take_damage_weekly 5 2).1.current_attack = 10 ∧
    c1Boss.base_attack *
        (100 + (c1Boss.gc_take_damage_weekly 5 2).1.revive_count *
          c1Boss.attack_boost_per_revive) = 1100 ∧
    (c1Boss.gc_take_damage_weekly 5 2).1.current_attack * 100 ≠
      c1Boss.base_attack *
        (100 + (c1Boss.gc_take_damage_weekly 5 2).1.revive_count *
          c1Boss.attack_boost_per_revive) := by
  refine ⟨?_, ?_, ?_, ?_⟩ <;> decide

/-- A Weekly boss with titan-like numbers for the witness. -/
def c1WitnessBoss : GcBoss :=
  { c1Boss with
    base_attack := 40
    current_attack := 40
    defense := 4
    current_hp := 7
    revive_count := 0 }

/-- Witness for `gc_take_damage_weekly_spec`: a 100-damage killing blow with
two surviving organizations revives `c1WitnessBoss` to HP 3, revive count 1,
attack 42, rage 0, `Enraged`. -/
theorem gc_take_damage_weekly_spec_witness :
    c1WitnessBoss.boss_type = .Weekly ∧
    c1WitnessBoss.current_hp ≤ max (100 - c1WitnessBoss.defense / 2) 1 ∧
    (c1WitnessBoss.gc_take_damage_weekly 100 2).1.current_hp = 3 ∧
    (c1WitnessBoss.gc_take_damage_weekly 100 2).1.revive_count = 1 ∧
    (c1WitnessBoss.gc_take_damage_weekly 100 2).1.current_attack = 42 ∧
    (c1WitnessBoss.gc_take_damage_weekly 100 2).1.current_rage = 0 ∧
    (c1WitnessBoss.gc_take_damage_weekly 100 2).1.state = .Enraged := by
  have h := (gc_take_damage_weekly_spec c1WitnessBoss 100 2 (by decide) (by decide)).1
    (by decide)
  obtain ⟨h1, h2, h3, h4, h5⟩ := h
  exact ⟨by decide, by decide, by rw [h1]; decide, by rw [h2]; decide, by rw [h3]; decide,
    h4, h5⟩

/-! ## C9: the rage invariant over arbitrary operation sequences -/

/-- The public mutating boss operations of `gc_boss.rs` relevant to the rage
state: rage gain, both damage entry points (which internally handle revival),
rage consumption, and the turn-end skill-cooldown tick. -/
inductive GcBossOp where
  | addRage (amount : Nat)
  | takeDamage (damage : Nat)
  | takeDamageWeekly (damage surviving_org_count : Nat)
  | consumeRage
  | onTurnEnd
deriving Repr

/-- Apply one boss operation. -/
def GcBossOp.apply (b : GcBoss) : GcBossOp → GcBoss
  | .addRage n => b.gc_add_rage n
  | .takeDamage d => (b.gc_take_damage d).1
  | .takeDamageWeekly d s => (b.gc_take_damage_weekly d s).1
  | .consumeRage => b.gc_consume_rage
  | .onTurnEnd => b.gc_on_turn_end

/-- Every operation preserves `current_rage ≤ max_rage`. -/
theorem GcBossOp.apply_rage_le (b : GcBoss) (op : GcBossOp)
    (h : b.current_rage ≤ b.max_rage) :
    (op.apply b).current_rage ≤ (op.apply b).max_rage := by
  cases op with
  | addRage n =>
    simp only [GcBossOp.apply, GcBoss.gc_add_rage]
    split_ifs <;> simp
  | takeDamage d =>
    simp only [GcBossOp.apply, GcBoss.gc_take_damage, GcBoss.gc_add_rage,
      GcBoss.gc_revive, GcBoss.gc_can_revive]
    split_ifs <;> simp
  | takeDamageWeekly d s =>
    simp only [GcBossOp.apply, GcBoss.gc_take_damage_weekly, GcBoss.gc_add_rage,
      GcBoss.gc_revive_weekly]
    split_ifs <;> simp
  | consumeRage =>
    simp only [GcBossOp.apply, GcBoss.gc_consume_rage]
    split_ifs <;> simp
  | onTurnEnd =>
    simp only [GcBossOp.apply, GcBoss.gc_on_turn_end]
    exact h

/-- C9: starting from any `gc_new` boss, after any sequence of the public
boss operations the invariant `current_rage ≤ max_rage` holds; moreover
`gc_add_rage` caps the summed rage at `max_rage` and reaching the cap forces
the `Enraged` state. -/
theorem gc_boss_rage_invariant (id name : String) (boss_type : GcBossType)
    (max_hp base_attack defense max_rage : Nat) (rage_from_damage : Nat → Nat)
    (ops : List GcBossOp) :
    (ops.foldl GcBossOp.apply
        (GcBoss.gc_new id name boss_type max_hp base_attack defense max_rage
          rage_from_damage)).current_rage ≤
      (ops.foldl GcBossOp.apply
        (GcBoss.gc_new id name boss_type max_hp base_attack defense max_rage
          rage_from_damage)).max_rage ∧
    (∀ (b : GcBoss) (n : Nat),
      (b.gc_add_rage n).current_rage = min (b.current_rage + n) b.max_rage ∧
      (b.max_rage ≤ (b.gc_add_rage n).current_rage → (b.gc_add_rage n).state = .Enraged)) := by
  constructor
  · have main : ∀ (ops : List GcBossOp) (b : GcBoss), b.current_rage ≤ b.max_rage →
        (ops.foldl GcBossOp.apply b).current_rage ≤ (ops.foldl GcBossOp.apply b).max_rage := by
      intro ops
      induction ops with
      | nil => intro b h; exact h
      | cons op rest ih =>
        intro b h
        exact ih (op.apply b) (GcBossOp.apply_rage_le b op h)
    exact main ops _ (by simp [GcBoss.gc_new])
  · intro b n
    exact ⟨GcBoss.gc_add_rage_current_rage b n, GcBoss.gc_add_rage_state b n⟩

/-- Witness for `gc_boss_rage_invariant`: a concrete boss and operation
sequence, with the cap hypothesis of the `gc_add_rage` conjunct discharged at
a rage-overflowing input. -/
theorem gc_boss_rage_invariant_witness :
    (([GcBossOp.addRage 150, .takeDamage 30, .consumeRage,
        .takeDamageWeekly 500 2, .onTurnEnd].foldl GcBossOp.apply
        (GcBoss.gc_new "w" "w" .Weekly 200 40 20 100 (fun d => d / 2))).current_rage ≤
      ([GcBossOp.addRage 150, .takeDamage 30, .consumeRage,
        .takeDamageWeekly 500 2, .onTurnEnd].foldl GcBossOp.apply
        (GcBoss.gc_new "w" "w" .Weekly 200 40 20 100 (fun d => d / 2))).max_rage) ∧
    ((c1Boss.gc_add_rage 150).current_rage =
        min (c1Boss.current_rage + 150) c1Boss.max_rage ∧
      (c1Boss.max_rage ≤ (c1Boss.gc_add_rage 150).current_rage →
        (c1Boss.gc_add_rage 150).state = .Enraged)) ∧
    c1Boss.max_rage ≤ (c1Boss.gc_add_rage 150).current_rage ∧
    (c1Boss.gc_add_rage 150).state = .Enraged := by
  have h := gc_boss_rage_invariant "w" "w" .Weekly 200 40 20 100 (fun d => d / 2)
    [GcBossOp.addRage 150, .takeDamage 30, .consumeRage, .takeDamageWeekly 500 2, .onTurnEnd]
  refine ⟨h.1, h.2 c1Boss 150, by decide, (h.2 c1Boss 150).2 (by decide)⟩

/-! ## C4: skill selection -/

/-- The running state of Rust's `max_by_key` fold once a first element has
been seen: keep the new element whenever its key is `≥` the current best
(so the *last* maximal element wins). -/
def gcMaxRun (m : GcBossSkill) : List GcBossSkill → GcBossSkill
  | [] => m
  | s :: rest => if m.cooldown ≤ s.cooldown then gcMaxRun s rest else gcMaxRun m rest

theorem gcMaxByCooldown_eq_run (m : GcBossSkill) (l : List GcBossSkill) :
    l.foldl
      (fun best s =>
        match best with
        | none => some s
        | some mm => if mm.cooldown ≤ s.cooldown then some s else some mm)
      (some m) = some (gcMaxRun m l) := by
  induction l generalizing m with
  | nil => rfl
  | cons s rest ih =>
    simp only [List.foldl_cons, gcMaxRun]
    split <;> exact ih _

theorem gcMaxRun_spec (l : List GcBossSkill) :
    ∀ m : GcBossSkill,
      (gcMaxRun m l = m ∨ gcMaxRun m l ∈ l) ∧
      m.cooldown ≤ (gcMaxRun m l).cooldown ∧
      (∀ t ∈ l, t.cooldown ≤ (gcMaxRun m l).cooldown) ∧
      ((gcMaxRun m l = m ∧ ∀ t ∈ l, t.cooldown < m.cooldown) ∨
       ∃ i, ∃ hi : i < l.length, l.get ⟨i, hi⟩ = gcMaxRun m l ∧
         ∀ j, ∀ hj : j < l.length, i < j → (l.get ⟨j, hj⟩).cooldown < (gcMaxRun m l).cooldown) := by
  induction l with
  | nil => intro m; simp [gcMaxRun]
  | cons s rest ih =>
    intro m
    by_cases h : m.cooldown ≤ s.cooldown
    · obtain ⟨hmem, hmono, hmax, hlast⟩ := ih s
      have hrw : gcMaxRun m (s :: rest) = gcMaxRun s rest := by
        simp [gcMaxRun, h]
      rw [hrw]
      refine ⟨?_, le_trans h hmono, ?_, ?_⟩
      · rcases hmem with hh | hh
        · exact Or.inr (by simp [hh])
        · exact Or.inr (List.mem_cons_of_mem _ hh)
      · intro t ht
        rcases List.mem_cons.mp ht with rfl | ht'
        · exact hmono
        · exact hmax t ht'
      · rcases hlast with ⟨heq, hstrict⟩ | ⟨i, hi, hget, hafter⟩
        · refine Or.inr ⟨0, by simp, by simpa using heq.symm, ?_⟩
          intro j hj hpos
          match j with
          | Nat.succ j' =>
            have := hstrict (rest.get ⟨j', by simpa using hj⟩) (List.get_mem _ _ _)
            rw [heq]
            simpa using this
        · refine Or.inr ⟨i + 1, by simpa using hi, by simpa using hget, ?_⟩
          intro j hj hlt
          match j with
          | Nat.succ j' =>
            have := hafter j' (by simpa using hj) (by omega)
            simpa using this
    · push_neg at h
      obtain ⟨hmem, hmono, hmax, hlast⟩ := ih m
      have hrw : gcMaxRun m (s :: rest) = gcMaxRun m rest := by
        simp [gcMaxRun, not_le.mpr h]
      rw [hrw]
      refine ⟨?_, hmono, ?_, ?_⟩
      · rcases hmem with hh | hh
        · exact Or.inl hh
        · exact Or.inr (List.mem_cons_of_mem _ hh)
      · intro t ht
        rcases List.mem_cons.mp ht with rfl | ht'
        · exact le_trans (le_of_lt h) hmono
        · exact hmax t ht'
      · rcases hlast with ⟨heq, hstrict⟩ | ⟨i, hi, hget, hafter⟩
        · refine Or.inl ⟨heq, ?_⟩
          intro t ht
          rcases List.mem_cons.mp ht with rfl | ht'
          · exact h
          · exact hstrict t ht'
        · refine Or.inr ⟨i + 1, by simpa using hi, by simpa using hget, ?_⟩
          intro j hj hlt
          match j with
          | Nat.succ j' =>
            have := hafter j' (by simpa using hj) (by omega)
            simpa using this

/-- Concrete skills for the C4 counterexample: both ready, equal base
cooldown 3, listed A before B. -/
def c4SkillA : GcBossSkill := GcBossSkill.gc_new "A" "a" "a" 30 .Single 3
def c4SkillB : GcBossSkill := GcBossSkill.gc_new "B" "b" "b" 15 .All 3

/-- A boss with empty rage and the two tied skills. -/
def c4Boss : GcBoss :=
  { c1Boss with
    boss_type := .Mini
    current_rage := 0
    skills := [c4SkillA, c4SkillB] }

/-- C4 counterexample: rage is not full, both skills are ready with equal
base cooldown 3, skill `A` appears first — yet `gc_select_skill` returns
skill `B` (Rust's `max_by_key` keeps the **last** maximal element), not the
first-in-list skill the claim demands. -/
theorem gc_select_skill_tie_break_counterexample :
    c4Boss.gc_is_rage_full = false ∧
    c4Boss.skills = [c4SkillA, c4SkillB] ∧
    c4SkillA.gc_is_ready = true ∧ c4SkillB.gc_is_ready = true ∧
    c4SkillA.cooldown = c4SkillB.cooldown ∧
    c4Boss.gc_select_skill = some c4SkillB ∧
    c4SkillB ≠ c4SkillA := by
  refine ⟨?_, ?_, ?_, ?_, ?_, ?_, ?_⟩ <;> decide

/-- C4 (amended): with full rage `gc_select_skill` returns the rage skill
ignoring cooldowns; otherwise it returns `none` exactly when no skill is
ready, and a returned skill is a ready member of the list with maximal base
cooldown among the ready ones, ties broken by the **last** (not first)
position among the ready skills. -/
theorem gc_select_skill_spec (b : GcBoss) :
    (b.gc_is_rage_full = true → b.gc_select_skill = some b.rage_skill) ∧
    (b.gc_is_rage_full = false →
      ((b.gc_select_skill = none ↔ b.skills.filter (·.gc_is_ready) = []) ∧
       (∀ s, b.gc_select_skill = some s →
          s ∈ b.skills ∧ s.gc_is_ready = true ∧
          (∀ t ∈ b.skills, t.gc_is_ready = true → t.cooldown ≤ s.cooldown) ∧
          ∃ i, ∃ hi : i < (b.skills.filter (·.gc_is_ready)).length,
            (b.skills.filter (·.gc_is_ready)).get ⟨i, hi⟩ = s ∧
            ∀ j, ∀ hj : j < (b.skills.filter (·.gc_is_ready)).length,
              i < j → ((b.skills.filter (·.gc_is_ready)).get ⟨j, hj⟩).cooldown < s.cooldown))) := by
  constructor
  · intro h
    simp [GcBoss.gc_select_skill, h]
  · intro h
    have hsel : b.gc_select_skill = GcBoss.gcMaxByCooldown (b.skills.filter (·.gc_is_ready)) := by
      simp [GcBoss.gc_select_skill, h]
    cases hready : b.skills.filter (·.gc_is_ready) with
    | nil =>
      constructor
      · simp [hsel, hready, GcBoss.gcMaxByCooldown]
      · intro s hs
        rw [hsel, hready] at hs
        simp [GcBoss.gcMaxByCooldown] at hs
    | cons x xs =>
      have hrun : b.gc_select_skill = some (gcMaxRun x xs) := by
        rw [hsel, hready]
        simpa [GcBoss.gcMaxByCooldown] using gcMaxByCooldown_eq_run x xs
      constructor
      · simp [hrun]
      · intro s hs
        rw [hrun] at hs
        injection hs with hs
        obtain ⟨hmem, hmono, hmax, hlast⟩ := gcMaxRun_spec xs x
        have hsmem : s ∈ b.skills.filter (·.gc_is_ready) := by
          rw [hready, ← hs]
          rcases hmem with hh | hh
          · simp [hh]
          · exact List.mem_cons_of_mem _ hh
        have hs_filter := List.mem_filter.mp hsmem
        refine ⟨hs_filter.1, by simpa using hs_filter.2, ?_, ?_⟩
        · intro t ht htr
          have htm : t ∈ b.skills.filter (·.gc_is_ready) :=
            List.mem_filter.mpr ⟨ht, by simpa using htr⟩
          rw [hready] at htm
          rcases List.mem_cons.mp htm with rfl | htm'
          · rw [← hs]; exact hmono
          · rw [← hs]; exact hmax t htm'
        · rcases hlast with ⟨heq, hstrict⟩ | ⟨i, hi, hget, hafter⟩
          · refine ⟨0, by simp, by simp [← hs, heq], ?_⟩
            intro j hj hlt
            match j with
            | Nat.succ j' =>
              have := hstrict (xs.get ⟨j', by simpa using hj⟩) (List.get_mem _ _ _)
              rw [← hs, heq]
              simpa using this
          · refine ⟨i + 1, by simpa using hi, by simpa [hs] using hget, ?_⟩
            intro j hj hlt
            match j with
            | Nat.succ j' =>
              have := hafter j' (by simpa using hj) (by omega)
              rw [← hs]
              simpa using this

/-- A boss for the `gc_select_skill_spec` witness: rage not full, one ready
skill with cooldown 0 and one ready skill with cooldown 3. -/
def c4WitnessBoss : GcBoss :=
  { c4Boss with
    skills := [GcBossSkill.gc_new "claw" "c" "c" 30 .Single 0,
               GcBossSkill.gc_new "screech" "s" "s" 15 .All 3] }

/-- Witness for `gc_select_skill_spec`: applied to `c4WitnessBoss` (rage not
full, skill "screech" selected) and, for the rage branch, to `c4WitnessBoss`
with full rage. -/
theorem gc_select_skill_spec_witness :
    c4WitnessBoss.gc_is_rage_full = false ∧
    c4WitnessBoss.gc_select_skill = some (GcBossSkill.gc_new "screech" "s" "s" 15 .All 3) ∧
    (c4WitnessBoss.gc_select_skill = none ↔
      c4WitnessBoss.skills.filter (·.gc_is_ready) = []) ∧
    ({ c4WitnessBoss with current_rage := 100 }.gc_is_rage_full = true) ∧
    { c4WitnessBoss with current_rage := 100 }.gc_select_skill =
      some { c4WitnessBoss with current_rage := 100 }.rage_skill := by
  refine ⟨by decide, by decide, ((gc_select_skill_spec c4WitnessBoss).2 (by decide)).1,
    by decide, (gc_select_skill_spec { c4WitnessBoss with current_rage := 100 }).1 (by decide)⟩

/-! ## C2: the two attack resolvers -/

/-- Two monsters whose effective attack and defense tie at 100 on plain
terrain; the defender has 50 HP and the attacker 60 HP. -/
def c2M1 : GcMonster :=
  { id := "m1", template_id := "m1", name := "m1", level := 4, attr := .None
    base_atk := 100, base_def := 40, current_hp := 60, max_hp := 60
    slot := none, can_attack := true, star := 1, golden_level := 0 }

def c2M2 : GcMonster :=
  { id := "m2", template_id := "m2", name := "m2", level := 4, attr := .None
    base_atk := 30, base_def := 100, current_hp := 50, max_hp := 50
    slot := none, can_attack := true, star := 1, golden_level := 0 }

/-- C2 counterexample: on the `atk == def` tie, `gc_calculate_attack` deals 0
damage but reports **both** sides destroyed even though both HP totals are
positive — destruction here follows the branch taken, not an HP comparison,
falsifying the claim for this resolver. -/
theorem gc_calculate_attack_destroyed_counterexample :
    c2M1.effective_atk .Plain = c2M2.effective_def .Plain ∧
    (gc_calculate_attack c2M1 (some c2M2) 0 (some 0) .Plain .Plain).damage = 0 ∧
    c2M2.current_hp = 50 ∧ c2M1.current_hp = 60 ∧
    (gc_calculate_attack c2M1 (some c2M2) 0 (some 0) .Plain .Plain).target_destroyed = true ∧
    (gc_calculate_attack c2M1 (some c2M2) 0 (some 0) .Plain .Plain).attacker_destroyed = true ∧
    ¬ c2M2.current_hp ≤ (gc_calculate_attack c2M1 (some c2M2) 0 (some 0) .Plain .Plain).damage := by
  refine ⟨?_, ?_, ?_, ?_, ?_, ?_, ?_⟩ <;> decide

/-- C2 (amended): both resolvers implement the three-way damage rule
(`atk > def`: defender takes `atk − def`, attacker unharmed; `atk < def`:
attacker takes `def − atk`, defender unharmed; `atk == def`: no damage).
`gc_calculate_battle_damage` reports a side destroyed iff the damage applied
to it is at least its current HP; `gc_calculate_attack` instead fixes the
destroyed flags by the branch taken (`atk > def`: target destroyed;
`atk < def`: attacker destroyed; `atk == def`: both destroyed), regardless of
HP. -/
theorem gc_battle_damage_spec (m1 m2 : GcMonster) (s1 : Nat) (s2 : Option Nat)
    (t1 t2 : GcTerrainType) :
    (m2.effective_def t2 < m1.effective_atk t1 →
      ((gc_calculate_battle_damage m1 m2 t1 t2).damage =
          m1.effective_atk t1 - m2.effective_def t2 ∧
        (gc_calculate_battle_damage m1 m2 t1 t2).counter_damage = 0 ∧
        (gc_calculate_attack m1 (some m2) s1 s2 t1 t2).damage =
          m1.effective_atk t1 - m2.effective_def t2 ∧
        (gc_calculate_attack m1 (some m2) s1 s2 t1 t2).target_destroyed = true ∧
        (gc_calculate_attack m1 (some m2) s1 s2 t1 t2).attacker_destroyed = false)) ∧
    (m1.effective_atk t1 < m2.effective_def t2 →
      ((gc_calculate_battle_damage m1 m2 t1 t2).damage = 0 ∧
        (gc_calculate_battle_damage m1 m2 t1 t2).counter_damage =
          m2.effective_def t2 - m1.effective_atk t1 ∧
        (gc_calculate_attack m1 (some m2) s1 s2 t1 t2).damage =
          m2.effective_def t2 - m1.effective_atk t1 ∧
        (gc_calculate_attack m1 (some m2) s1 s2 t1 t2).target_destroyed = false ∧
        (gc_calculate_attack m1 (some m2) s1 s2 t1 t2).attacker_destroyed = true)) ∧
    (m1.effective_atk t1 = m2.effective_def t2 →
      ((gc_calculate_battle_damage m1 m2 t1 t2).damage = 0 ∧
        (gc_calculate_battle_damage m1 m2 t1 t2).counter_damage = 0 ∧
        (gc_calculate_attack m1 (some m2) s1 s2 t1 t2).damage = 0 ∧
        (gc_calculate_attack m1 (some m2) s1 s2 t1 t2).target_destroyed = true ∧
        (gc_calculate_attack m1 (some m2) s1 s2 t1 t2).attacker_destroyed = true)) ∧
    ((gc_calculate_battle_damage m1 m2 t1 t2).defender_destroyed = true ↔
      m2.current_hp ≤ (gc_calculate_battle_damage m1 m2 t1 t2).damage) ∧
    ((gc_calculate_battle_damage m1 m2 t1 t2).attacker_destroyed = true ↔
      m1.current_hp ≤ (gc_calculate_battle_damage m1 m2 t1 t2).counter_damage) := by
  unfold gc_calculate_battle_damage gc_calculate_attack
  dsimp only
  refine ⟨?_, ?_, ?_, ?_, ?_⟩
  · intro hgt
    simp [hgt]
  · intro hlt
    have h1 : ¬ (m2.effective_def t2 < m1.effective_atk t1) := by omega
    simp [h1, hlt]
  · intro heq
    have h1 : ¬ (m2.effective_def t2 < m1.effective_atk t1) := by omega
    have h2 : ¬ (m1.effective_atk t1 < m2.effective_def t2) := by omega
    simp [h1, h2]
  · simp [ge_iff_le]
  · simp [ge_iff_le]

/-- Witness for `gc_battle_damage_spec`: the repository's own test vector
(effective 2000 ATK vs 1500 DEF, defender HP 1000): 500 damage, no counter
damage, defender reported destroyed by `gc_calculate_battle_damage` iff
`1000 ≤ 500` (false), and both destroyed flags of `gc_calculate_attack` per
branch. -/
theorem gc_battle_damage_spec_witness :
    ({ c2M1 with base_atk := 2000 } : GcMonster).effective_atk .Plain = 2000 ∧
    ({ c2M2 with base_def := 1500, current_hp := 1000 } : GcMonster).effective_def .Plain
      = 1500 ∧
    ((gc_calculate_battle_damage { c2M1 with base_atk := 2000 }
        { c2M2 with base_def := 1500, current_hp := 1000 } .Plain .Plain).damage =
        2000 - 1500 ∧
      (gc_calculate_battle_damage { c2M1 with base_atk := 2000 }
        { c2M2 with base_def := 1500, current_hp := 1000 } .Plain .Plain).counter_damage = 0 ∧
      (gc_calculate_attack { c2M1 with base_atk := 2000 }
        (some { c2M2 with base_def := 1500, current_hp := 1000 }) 0 (some 1) .Plain
          .Plain).damage = 2000 - 1500 ∧
      (gc_calculate_attack { c2M1 with base_atk := 2000 }
        (some { c2M2 with base_def := 1500, current_hp := 1000 }) 0 (some 1) .Plain
          .Plain).target_destroyed = true ∧
      (gc_calculate_attack { c2M1 with base_atk := 2000 }
        (some { c2M2 with base_def := 1500, current_hp := 1000 }) 0 (some 1) .Plain
          .Plain).attacker_destroyed = false) := by
  refine ⟨by decide, by decide, ?_⟩
  have h := (gc_battle_damage_spec { c2M1 with base_atk := 2000 }
    { c2M2 with base_def := 1500, current_hp := 1000 } 0 (some 1) .Plain .Plain).1
  exact h (by decide)

/-! ## C7: weakest-enemy target selection -/

theorem gcWeakestLoop_some_target (t : GcTerrainType) :
    ∀ (rest : List (Option GcMonster)) (i minAtk tgt : Nat),
      gcWeakestLoop t rest i minAtk (some tgt) =
        some ((gcWeakestLoop t rest i minAtk none).getD tgt) := by
  intro rest
  induction rest with
  | nil => intro i minAtk tgt; rfl
  | cons x rest ih =>
    intro i minAtk tgt
    cases x with
    | none => exact ih (i + 1) minAtk tgt
    | some m =>
      by_cases he : m.effective_atk t < minAtk
      · have h1 : gcWeakestLoop t (some m :: rest) i minAtk (some tgt) =
            gcWeakestLoop t rest (i + 1) (m.effective_atk t) (some i) := by
          simp [gcWeakestLoop, he]
        have h2 : gcWeakestLoop t (some m :: rest) i minAtk none =
            gcWeakestLoop t rest (i + 1) (m.effective_atk t) (some i) := by
          simp [gcWeakestLoop, he]
        rw [h1, h2, ih (i + 1) (m.effective_atk t) i]
        simp
      · have h1 : gcWeakestLoop t (some m :: rest) i minAtk (some tgt) =
            gcWeakestLoop t rest (i + 1) minAtk (some tgt) := by
          simp [gcWeakestLoop, he]
        have h2 : gcWeakestLoop t (some m :: rest) i minAtk none =
            gcWeakestLoop t rest (i + 1) minAtk none := by
          simp [gcWeakestLoop, he]
        rw [h1, h2, ih (i + 1) minAtk tgt]

theorem gcWeakestLoop_none_spec (t : GcTerrainType) :
    ∀ (rest : List (Option GcMonster)) (i minAtk : Nat),
      (gcWeakestLoop t rest i minAtk none = none ↔
        ∀ (j : Nat) (mj : GcMonster), rest[j]? = some (some mj) → minAtk ≤ mj.effective_atk t) ∧
      (∀ r, gcWeakestLoop t rest i minAtk none = some r →
        ∃ k m, r = i + k ∧ rest[k]? = some (some m) ∧ m.effective_atk t < minAtk ∧
          (∀ (j : Nat) (mj : GcMonster), rest[j]? = some (some mj) →
            m.effective_atk t ≤ mj.effective_atk t) ∧
          (∀ (j : Nat) (mj : GcMonster), j < k → rest[j]? = some (some mj) →
            m.effective_atk t < mj.effective_atk t)) := by
  intro rest
  induction rest with
  | nil =>
    intro i minAtk
    constructor
    · simp [gcWeakestLoop]
    · intro r hr
      simp [gcWeakestLoop] at hr
  | cons x rest ih =>
    intro i minAtk
    cases x with
    | none =>
      have hstep : gcWeakestLoop t (none :: rest) i minAtk none =
          gcWeakestLoop t rest (i + 1) minAtk none := rfl
      constructor
      · rw [hstep, (ih (i + 1) minAtk).1]
        constructor
        · intro hall j mj hj
          match j with
          | 0 => simp at hj
          | Nat.succ j' => exact hall j' mj (by simpa using hj)
        · intro hall j mj hj
          exact hall (j + 1) mj (by simpa using hj)
      · intro r hr
        rw [hstep] at hr
        obtain ⟨k, m, hrk, hk, hlt, hmin, hstrict⟩ := (ih (i + 1) minAtk).2 r hr
        refine ⟨k + 1, m, by omega, by simpa using hk, hlt, ?_, ?_⟩
        · intro j mj hj
          match j with
          | 0 => simp at hj
          | Nat.succ j' => exact hmin j' mj (by simpa using hj)
        · intro j mj hjk hj
          match j with
          | 0 => simp at hj
          | Nat.succ j' => exact hstrict j' mj (by omega) (by simpa using hj)
    | some m0 =>
      by_cases he : m0.effective_atk t < minAtk
      · have hstep : gcWeakestLoop t (some m0 :: rest) i minAtk none =
            gcWeakestLoop t rest (i + 1) (m0.effective_atk t) (some i) := by
          simp [gcWeakestLoop, he]
        rw [hstep, gcWeakestLoop_some_target t rest (i + 1) (m0.effective_atk t) i]
        constructor
        · constructor
          · intro hr; exact absurd hr (by simp)
          · intro hall
            exact absurd (hall 0 m0 (by simp)) (by omega)
        · intro r hr
          injection hr with hr
          cases hinner : gcWeakestLoop t rest (i + 1) (m0.effective_atk t) none with
          | none =>
            rw [hinner] at hr
            simp at hr
            refine ⟨0, m0, by omega, by simp, he, ?_, by omega⟩
            intro j mj hj
            match j with
            | 0 =>
              simp at hj
              subst hj
              omega
            | Nat.succ j' =>
              have := ((ih (i + 1) (m0.effective_atk t)).1.mp hinner) j' mj (by simpa using hj)
              omega
          | some r' =>
            rw [hinner] at hr
            simp at hr
            obtain ⟨k', m', hrk, hk, hlt, hmin, hstrict⟩ :=
              (ih (i + 1) (m0.effective_atk t)).2 r' hinner
            refine ⟨k' + 1, m', by omega, by simpa using hk, by omega, ?_, ?_⟩
            · intro j mj hj
              match j with
              | 0 =>
                simp at hj
                subst hj
                omega
              | Nat.succ j' => exact hmin j' mj (by simpa using hj)
            · intro j mj hjk hj
              match j with
              | 0 =>
                simp at hj
                subst hj
                omega
              | Nat.succ j' => exact hstrict j' mj (by omega) (by simpa using hj)
      · have hstep : gcWeakestLoop t (some m0 :: rest) i minAtk none =
            gcWeakestLoop t rest (i + 1) minAtk none := by
          simp [gcWeakestLoop, he]
        constructor
        · rw [hstep, (ih (i + 1) minAtk).1]
          constructor
          · intro hall j mj hj
            match j with
            | 0 =>
              simp at hj
              subst hj
              omega
            | Nat.succ j' => exact hall j' mj (by simpa using hj)
          · intro hall j mj hj
            exact hall (j + 1) mj (by simpa using hj)
        · intro r hr
          rw [hstep] at hr
          obtain ⟨k', m', hrk, hk, hlt, hmin, hstrict⟩ := (ih (i + 1) minAtk).2 r hr
          refine ⟨k' + 1, m', by omega, by simpa using hk, hlt, ?_, ?_⟩
          · intro j mj hj
            match j with
            | 0 =>
              simp at hj
              subst hj
              omega
            | Nat.succ j' => exact hmin j' mj (by simpa using hj)
          · intro j mj hjk hj
            match j with
            | 0 =>
              simp at hj
              subst hj
              omega
            | Nat.succ j' => exact hstrict j' mj (by omega) (by simpa using hj)

/-- C7 (amended): over a 5-slot enemy array, both weakest-target selectors
(`gc_auto_select_target`; `get_weakest_enemy_slot` is the same loop over the
arena's enemy side) return the occupied slot whose monster has the minimum
terrain-adjusted effective attack among the monsters whose effective attack
is strictly below the `u32::MAX` sentinel, ties broken by the lowest slot
index; the result is `none` exactly when no occupied slot's monster has
effective attack below `u32::MAX` (in particular when no slot is occupied). -/
theorem gc_auto_select_target_spec (enemy_monsters : List (Option GcMonster))
    (enemy_terrain : GcTerrainType) (h5 : enemy_monsters.length = 5) :
    (∀ arena : GcBattleArena,
      arena.get_weakest_enemy_slot =
        gc_auto_select_target arena.enemy_monsters arena.enemy_terrain) ∧
    (gc_auto_select_target enemy_monsters enemy_terrain = none ↔
      ∀ (j : Nat) (mj : GcMonster), enemy_monsters[j]? = some (some mj) →
        u32Max ≤ mj.effective_atk enemy_terrain) ∧
    (∀ i, gc_auto_select_target enemy_monsters enemy_terrain = some i →
      ∃ m, enemy_monsters[i]? = some (some m) ∧
        m.effective_atk enemy_terrain < u32Max ∧
        (∀ (j : Nat) (mj : GcMonster), enemy_monsters[j]? = some (some mj) →
          m.effective_atk enemy_terrain ≤ mj.effective_atk enemy_terrain) ∧
        (∀ (j : Nat) (mj : GcMonster), j < i → enemy_monsters[j]? = some (some mj) →
          m.effective_atk enemy_terrain < mj.effective_atk enemy_terrain)) := by
  refine ⟨fun _ => rfl, ?_, ?_⟩
  · exact (gcWeakestLoop_none_spec enemy_terrain enemy_monsters 0 u32Max).1
  · intro i hi
    obtain ⟨k, m, hrk, hk, hlt, hmin, hstrict⟩ :=
      (gcWeakestLoop_none_spec enemy_terrain enemy_monsters 0 u32Max).2 i hi
    have hik : i = k := by omega
    subst hik
    exact ⟨m, hk, hlt, hmin, fun j mj hj hocc => hstrict j mj hj hocc⟩

/-- A monster whose effective attack on plain terrain is exactly `u32::MAX`
(in Rust: `4294967295 as f32` rounds to `4294967296.0` and the `as u32` cast
saturates back to `u32::MAX`; the terrain step then keeps the value). -/
def c7MaxMonster : GcMonster :=
  { c2M1 with id := "mx", base_atk := 4294967295 }

/-- C7 counterexample: a single occupied slot whose monster's effective
attack equals the `u32::MAX` loop sentinel is never selected — both selectors
return `none` (a direct player hit) although an opposing slot is occupied. -/
theorem gc_auto_select_target_sentinel_counterexample :
    c7MaxMonster.effective_atk .Plain = u32Max ∧
    ([some c7MaxMonster, none, none, none, none] :
        List (Option GcMonster))[0]? = some (some c7MaxMonster) ∧
    gc_auto_select_target [some c7MaxMonster, none, none, none, none] .Plain = none ∧
    ({ player_terrain := .Plain, enemy_terrain := .Plain, player_monsters := []
       enemy_monsters := [some c7MaxMonster, none, none, none, none]
       normal_summon_used := false } : GcBattleArena).get_weakest_enemy_slot = none := by
  refine ⟨?_, ?_, ?_, ?_⟩ <;> decide

/-- Witness for `gc_auto_select_target_spec`: slots `[atk 30, empty, atk 20,
empty, empty]` select slot 2 (minimum effective attack 20). -/
theorem gc_auto_select_target_spec_witness :
    gc_auto_select_target
        [some c2M1, none, some { c2M1 with id := "w", base_atk := 20 }, none, none]
        .Plain = some 2 ∧
    (∃ m, ([some c2M1, none, some { c2M1 with id := "w", base_atk := 20 }, none, none] :
        List (Option GcMonster))[2]? = some (some m) ∧
      m.effective_atk .Plain < u32Max ∧
      (∀ (j : Nat) (mj : GcMonster),
        ([some c2M1, none, some { c2M1 with id := "w", base_atk := 20 }, none, none] :
          List (Option GcMonster))[j]? = some (some mj) →
        m.effective_atk .Plain ≤ mj.effective_atk .Plain) ∧
      (∀ (j : Nat) (mj : GcMonster), j < 2 → ([some c2M1, none,
          some { c2M1 with id := "w", base_atk := 20 }, none, none] :
          List (Option GcMonster))[j]? = some (some mj) →
        m.effective_atk .Plain < mj.effective_atk .Plain)) :=
  ⟨by decide,
   (gc_auto_select_target_spec
      [some c2M1, none, some { c2M1 with id := "w", base_atk := 20 }, none, none]
      .Plain (by decide)).2.2 2 (by decide)⟩

/-! ## C3 / C10: the battlefield attack sweep -/

/-- Spec-side per-lane direct player damage: an eligible occupied attacking
slot facing an empty mirrored slot deals its full attack damage to the
player; every other lane contributes nothing. -/
def specLanePlayerDamage (a e : GcBattlefieldSlot) : Nat :=
  match a.card with
  | some c => if a.can_attack = true ∧ e.card = none then c.base_damage else 0
  | none => 0

/-- Spec-side per-lane destroyed count: an eligible occupied attacking slot
facing an occupied mirrored slot destroys it exactly when the mirrored shield
does not exceed the attack damage. -/
def specLaneDestroyed (a e : GcBattlefieldSlot) : Nat :=
  match a.card, e.card with
  | some c, some _ => if a.can_attack = true ∧ e.remaining_hp ≤ c.base_damage then 1 else 0
  | _, _ => 0

theorem gcSweepLane_player_damage (i : Nat) (a e : GcBattlefieldSlot) :
    (gcSweepLane i a e).2.2.1 = specLanePlayerDamage a e := by
  unfold gcSweepLane specLanePlayerDamage
  cases hac : a.card with
  | none => rfl
  | some c =>
    cases hcan : a.can_attack with
    | false => simp
    | true =>
      cases hec : e.card with
      | none =>
        simp [GcBattlefieldSlot.gc_is_empty, hec]
      | some ec =>
        by_cases hd : e.remaining_hp ≤ c.base_damage <;>
          simp [GcBattlefieldSlot.gc_is_empty, hec, GcBattlefieldSlot.gc_take_damage, hd]

theorem gcSweepLane_destroyed (i : Nat) (a e : GcBattlefieldSlot) :
    (gcSweepLane i a e).2.2.2 = specLaneDestroyed a e := by
  unfold gcSweepLane specLaneDestroyed
  cases hac : a.card with
  | none => rfl
  | some c =>
    cases hcan : a.can_attack with
    | false =>
      cases e.card <;> simp
    | true =>
      cases hec : e.card with
      | none => simp [GcBattlefieldSlot.gc_is_empty, hec]
      | some ec =>
        by_cases hd : e.remaining_hp ≤ c.base_damage <;>
          simp [GcBattlefieldSlot.gc_is_empty, hec, GcBattlefieldSlot.gc_take_damage, hd]

theorem gcSweepGo_slots (as : List GcBattlefieldSlot) :
    ∀ (es : List GcBattlefieldSlot) (i k : Nat),
      (gcSweepGo i as es).1[k]? =
        match as[k]? with
        | some a =>
          match es[k]? with
          | some e => some (gcSweepLane (i + k) a e).1
          | none => none
        | none => es[k]? := by
  induction as with
  | nil =>
    intro es i k
    simp [gcSweepGo]
  | cons a as ih =>
    intro es i k
    cases es with
    | nil =>
      cases k with
      | zero => simp [gcSweepGo]
      | succ k =>
        simp only [gcSweepGo, List.getElem?_nil]
        split <;> rfl
    | cons e es =>
      cases k with
      | zero => simp [gcSweepGo]
      | succ k =>
        have harith : i + 1 + k = i + (k + 1) := by omega
        simp only [gcSweepGo, List.getElem?_cons_succ]
        rw [ih es (i + 1) k, harith]

theorem gcSweepGo_player_damage (as : List GcBattlefieldSlot) :
    ∀ (es : List GcBattlefieldSlot) (i : Nat),
      (gcSweepGo i as es).2.player_damage =
        (List.zipWith specLanePlayerDamage as es).sum := by
  induction as with
  | nil => intro es i; simp [gcSweepGo]
  | cons a as ih =>
    intro es i
    cases es with
    | nil => simp [gcSweepGo, ih]
    | cons e es =>
      simp only [gcSweepGo, List.zipWith_cons_cons, List.sum_cons]
      rw [ih es (i + 1), gcSweepLane_player_damage i a e]

theorem gcSweepGo_destroyed (as : List GcBattlefieldSlot) :
    ∀ (es : List GcBattlefieldSlot) (i : Nat),
      (gcSweepGo i as es).2.cards_destroyed =
        (List.zipWith specLaneDestroyed as es).sum := by
  induction as with
  | nil => intro es i; simp [gcSweepGo]
  | cons a as ih =>
    intro es i
    cases es with
    | nil => simp [gcSweepGo, ih]
    | cons e es =>
      simp only [gcSweepGo, List.zipWith_cons_cons, List.sum_cons]
      rw [ih es (i + 1), gcSweepLane_destroyed i a e]

/-- C3: `gc_attack_battlefield` walks the attacking slots in index order and
(i) an eligible occupied slot whose mirrored enemy slot is occupied applies
its damage to that slot's shield via `gc_take_damage` (which removes the card
exactly when the shield is exhausted); (ii) an eligible occupied slot whose
mirrored slot is empty leaves the mirror untouched, and (iii) the total
direct player damage is the sum of the full attack damage of exactly those
lanes, regardless of units in other opposing slots; (iv) the destroyed
counter counts exactly the lanes whose mirrored shield was exhausted; (v)
ineligible or empty attacking slots change nothing; and (vi) after the sweep
every attacking slot's eligibility flag is false. -/
theorem gc_attack_battlefield_lane_spec (self enemy : GcBattlefield) :
    (∀ (i : Nat) (a e : GcBattlefieldSlot),
      self.slots[i]? = some a → enemy.slots[i]? = some e →
      a.can_attack = true →
      ∀ c, a.card = some c →
        (e.card.isSome = true →
          (gc_attack_battlefield self enemy).2.1.slots[i]? =
            some (e.gc_take_damage c.base_damage).1) ∧
        (e.card = none →
          (gc_attack_battlefield self enemy).2.1.slots[i]? = some e)) ∧
    (∀ (i : Nat) (a e : GcBattlefieldSlot),
      self.slots[i]? = some a → enemy.slots[i]? = some e →
      (a.can_attack = false ∨ a.card = none) →
      (gc_attack_battlefield self enemy).2.1.slots[i]? = some e) ∧
    (gc_attack_battlefield self enemy).2.2.player_damage =
      (List.zipWith specLanePlayerDamage self.slots enemy.slots).sum ∧
    (gc_attack_battlefield self enemy).2.2.cards_destroyed =
      (List.zipWith specLaneDestroyed self.slots enemy.slots).sum ∧
    (∀ s ∈ (gc_attack_battlefield self enemy).1.slots, s.can_attack = false) := by
  have hslots : (gc_attack_battlefield self enemy).2.1.slots =
      (gcSweepGo 0 self.slots enemy.slots).1 := rfl
  refine ⟨?_, ?_, ?_, ?_, ?_⟩
  · intro i a e ha he hcan c hc
    rw [hslots, gcSweepGo_slots self.slots enemy.slots 0 i, ha, he]
    constructor
    · intro hocc
      obtain ⟨ec, hec⟩ := Option.isSome_iff_exists.mp hocc
      simp only [Nat.zero_add, gcSweepLane, hc, hcan]
      simp [GcBattlefieldSlot.gc_is_empty, hec]
    · intro hempty
      simp only [Nat.zero_add, gcSweepLane, hc, hcan]
      simp [GcBattlefieldSlot.gc_is_empty, hempty]
  · intro i a e ha he hskip
    rw [hslots, gcSweepGo_slots self.slots enemy.slots 0 i, ha, he]
    rcases hskip with hcan | hnone
    · simp only [Nat.zero_add, gcSweepLane]
      cases hc : a.card <;> simp [hcan]
    · simp [Nat.zero_add, gcSweepLane, hnone]
  · exact gcSweepGo_player_damage self.slots enemy.slots 0
  · exact gcSweepGo_destroyed self.slots enemy.slots 0
  · intro s hs
    have : (gc_attack_battlefield self enemy).1.slots =
        self.slots.map (fun s => { s with can_attack := false }) := rfl
    rw [this] at hs
    obtain ⟨s0, _, rfl⟩ := List.mem_map.mp hs
    rfl

/-- C10: a lane sweep never changes the attacking battlefield except for
clearing every slot's eligibility flag: the attacker-side result is exactly
the original slot list with `can_attack := false`, so every attacking slot's
card (occupancy and contents), shield value and index are unchanged —
attackers take no counter-damage and cannot be destroyed; only the enemy
battlefield's slots are modified, and its config is untouched. -/
theorem gc_attack_battlefield_frame (self enemy : GcBattlefield) :
    (gc_attack_battlefield self enemy).1.config = self.config ∧
    (gc_attack_battlefield self enemy).1.slots =
      self.slots.map (fun s => { s with can_attack := false }) ∧
    (∀ (i : Nat) (a : GcBattlefieldSlot), self.slots[i]? = some a →
      (gc_attack_battlefield self enemy).1.slots[i]? =
        some { a with can_attack := false } ∧
      ∃ a', (gc_attack_battlefield self enemy).1.slots[i]? = some a' ∧
        a'.card = a.card ∧ a'.remaining_hp = a.remaining_hp ∧
        a'.index = a.index ∧ a'.can_attack = false) ∧
    (gc_attack_battlefield self enemy).2.1.config = enemy.config := by
  refine ⟨rfl, rfl, ?_, rfl⟩
  intro i a ha
  have hmap : (gc_attack_battlefield self enemy).1.slots =
      self.slots.map (fun s => { s with can_attack := false }) := rfl
  have : (gc_attack_battlefield self enemy).1.slots[i]? =
      some { a with can_attack := false } := by
    rw [hmap, List.getElem?_map, ha]
    rfl
  exact ⟨this, { a with can_attack := false }, this, rfl, rfl, rfl, rfl⟩

/-- Concrete battlefields for the sweep witnesses: the attacker has one
eligible 7-damage card in slot 2; the enemy occupies only slot 0 (a 10-shield
defender), so the mirrored slot 2 is empty. -/
def c3Card : GcCard := GcCard.gc_new_attack "atk" "strike" 1 7

def c3Defender : GcCard := GcCard.gc_new_defense "wall" "wall" 1 10

def c3Self : GcBattlefield :=
  { config := .default
    slots := [.gc_new 0, .gc_new 1,
              { index := 2, card := some c3Card, can_attack := true, remaining_hp := 7 },
              .gc_new 3, .gc_new 4] }

def c3Enemy : GcBattlefield :=
  { config := .default
    slots := [{ index := 0, card := some c3Defender, can_attack := false, remaining_hp := 10 },
              .gc_new 1, .gc_new 2, .gc_new 3, .gc_new 4] }

/-- Witness for `gc_attack_battlefield_lane_spec`: the slot-2 attacker with
an empty mirrored slot deals its full 7 damage directly to the player, even
though enemy slot 0 is occupied. -/
theorem gc_attack_battlefield_lane_spec_witness :
    (gc_attack_battlefield c3Self c3Enemy).2.2.player_damage =
      (List.zipWith specLanePlayerDamage c3Self.slots c3Enemy.slots).sum ∧
    (List.zipWith specLanePlayerDamage c3Self.slots c3Enemy.slots).sum = 7 ∧
    (gc_attack_battlefield c3Self c3Enemy).2.1.slots[2]? =
      some (GcBattlefieldSlot.gc_new 2) := by
  refine ⟨(gc_attack_battlefield_lane_spec c3Self c3Enemy).2.2.1, by decide, ?_⟩
  exact ((gc_attack_battlefield_lane_spec c3Self c3Enemy).1 2
      { index := 2, card := some c3Card, can_attack := true, remaining_hp := 7 }
      (GcBattlefieldSlot.gc_new 2) (by decide) (by decide) rfl c3Card rfl).2 rfl

/-- Witness for `gc_attack_battlefield_frame`: the slot-2 attacker keeps its
card and shield, only its eligibility flag is cleared. -/
theorem gc_attack_battlefield_frame_witness :
    (gc_attack_battlefield c3Self c3Enemy).1.slots[2]? =
      some { index := 2, card := some c3Card, can_attack := false, remaining_hp := 7 } ∧
    (gc_attack_battlefield c3Self c3Enemy).1.config = c3Self.config :=
  ⟨((gc_attack_battlefield_frame c3Self c3Enemy).2.2.1 2
      { index := 2, card := some c3Card, can_attack := true, remaining_hp := 7 }
      (by decide)).1,
   (gc_attack_battlefield_frame c3Self c3Enemy).1⟩

/-! ## C8: rejected deployments leave the battle state untouched -/

theorem gcRemoveFirst_fst (cid : String) :
    ∀ hand : List GcCard,
      (GcPlayer.gcRemoveFirst cid hand).1 = hand.find? (fun c => c.id = cid) := by
  intro hand
  induction hand with
  | nil => rfl
  | cons c cs ih =>
    by_cases h : c.id = cid <;>
      simp [GcPlayer.gcRemoveFirst, List.find?_cons, h, ih]

/-- When the sought card is in the hand, the in-range target slot exists and
is empty, `gc_deploy_to_battlefield` succeeds. -/
theorem gc_deploy_to_battlefield_succeeds (p : GcPlayer) (cid : String) (slot : Nat)
    (hc : (p.gc_find_card_in_hand cid).isSome = true)
    (hs : ∀ s, p.battlefield.slots[slot]? = some s → s.gc_is_empty = true)
    (hsome : (p.battlefield.slots[slot]?).isSome = true) :
    (p.gc_deploy_to_battlefield cid slot).2 = none := by
  unfold GcPlayer.gc_deploy_to_battlefield
  have hfind : (GcPlayer.gcRemoveFirst cid p.hand).1 = p.hand.find? (fun c => c.id = cid) :=
    gcRemoveFirst_fst cid p.hand
  unfold GcPlayer.gc_find_card_in_hand at hc
  unfold GcPlayer.gc_remove_card_from_hand
  cases hrem : (GcPlayer.gcRemoveFirst cid p.hand).1 with
  | none =>
    rw [hrem] at hfind
    rw [← hfind] at hc
    simp at hc
  | some card =>
    obtain ⟨s, hslot⟩ := Option.isSome_iff_exists.mp hsome
    simp only [hrem]
    unfold GcBattlefield.gc_deploy_to_slot
    simp only [hslot, hs s hslot, Bool.not_true]
    simp

/-- C8: every call to `gc_deploy_card` that returns an error (not the current
player, player not found, insufficient action points, slot out of range,
slot occupied, or card not in hand) returns the battle state exactly as it
was — players, action points, hands and battlefields included; no partial
mutation from a rejected deployment is observable. -/
theorem gc_deploy_card_error_frame (st : GcBattleState) (player_id card_id : String)
    (slot_index : Nat) (st' : GcBattleState) (e : GcError)
    (h : st.gc_deploy_card player_id card_id slot_index = some (st', some e)) :
    st' = st := by
  unfold GcBattleState.gc_deploy_card at h
  split at h
  · injection h with h
    exact (congrArg Prod.fst h).symm
  · split at h
    · injection h with h
      exact (congrArg Prod.fst h).symm
    · next player hfind =>
      split at h
      · injection h with h
        exact (congrArg Prod.fst h).symm
      · split at h
        · injection h with h
          exact (congrArg Prod.fst h).symm
        · split at h
          · exact absurd h (by simp)
          · next slotv hslot =>
            split at h
            · injection h with h
              exact (congrArg Prod.fst h).symm
            · next hempty =>
              split at h
              · injection h with h
                exact (congrArg Prod.fst h).symm
              · next hcard =>
                dsimp only at h
                split at h
                · next player2 e0 hdep =>
                  exfalso
                  have hsucc : (({ player with
                      stats := (player.stats.gc_use_action_points 1).1 } :
                        GcPlayer).gc_deploy_to_battlefield card_id slot_index).2 = none := by
                    apply gc_deploy_to_battlefield_succeeds
                    · have h1 : ¬ player.gc_find_card_in_hand card_id = none := by
                        simpa using hcard
                      exact Option.isSome_iff_ne_none.mpr h1
                    · intro s hsv
                      have hse : s = slotv := by
                        rw [show ({ player with
                            stats := (player.stats.gc_use_action_points 1).1 } :
                              GcPlayer).battlefield = player.battlefield from rfl] at hsv
                        rw [hsv] at hslot
                        injection hslot
                      subst hse
                      simpa using hempty
                    · rw [show ({ player with
                          stats := (player.stats.gc_use_action_points 1).1 } :
                            GcPlayer).battlefield = player.battlefield from rfl]
                      simp [hslot]
                  rw [hdep] at hsucc
                  simp at hsucc
                · injection h with h
                  injection h with h1 h2
                  simp at h2

/-- A one-player battle state whose current player holds card "c1" and whose
battlefield slot 0 is already occupied. -/
def c8Player : GcPlayer :=
  { id := "p1"
    name := "P1"
    stats := ⟨100, 100, 10, 5, 3, 10, 5, 5⟩
    state := .Alive
    hand := [GcCard.gc_new_attack "c1" "strike" 1 10]
    deck := []
    discard := []
    battlefield :=
      { config := .default
        slots := [{ index := 0, card := some c3Defender, can_attack := false,
                    remaining_hp := 10 },
                  .gc_new 1, .gc_new 2, .gc_new 3, .gc_new 4] }
    level := 1 }

def c8State : GcBattleState :=
  { id := "battle1"
    turn := 1
    current_player_index := 0
    players := [c8Player]
    phase := .Starting
    turn_time_limit := 60
    winner_id := none
    card_pool := ⟨⟨5, 1, 1, 50⟩, [], [], []⟩
    action_points_per_turn := 5 }

/-- Witness for `gc_deploy_card_error_frame`: deploying onto the occupied
slot 0 is rejected with `GcSlotOccupied` and the state is returned
unchanged. -/
theorem gc_deploy_card_error_frame_witness :
    c8State.gc_deploy_card "p1" "c1" 0 = some (c8State, some GcError.GcSlotOccupied) ∧
    c8State = c8State :=
  ⟨by decide,
   gc_deploy_card_error_frame c8State "p1" "c1" 0 c8State .GcSlotOccupied (by decide)⟩

end IsekaiGenesis
